import Mathlib

/-!
# Verification of the GermanRenewableEnergy capacity-factor pipeline

Shallow embedding of the numeric core of the repository:

* `kfw_mastr/utils/helpers.py` — `compute_monthly_statistics`, `get_curtailment`,
  `create_results_dict`;
* `kfw_mastr/wind.py` — `WindCalc.get_power`, `WindCalc.calculate_power`,
  `WindCalc.calc_capacity_factor_wind`;
* `kfw_mastr/solar.py` — `calc_capacity_factor`;
* `kfw_mastr/calculate_cf_wind.py` / `calculate_cf_solar.py` — the per-unit loop,
  the missing-coordinate skip branch and the leap-year angle adjustment;
* `kfw_mastr/utils/session_funcs.py` — `save_and_commit` batching;
* `kfw_mastr/aggregator.py` — the SQL group statistics of `aggregate`.

Machine floats are modelled as rationals (`ℚ`); `np.round` is modelled as
round-half-to-even at a decimal position, matching NumPy semantics on exactly
representable values.  Power series are modelled NaN-free, so `np.nan_to_num`
is the identity on the embedded series (it is kept in the definitions where the
source applies it, operating on an `Option`-free series).
-/

namespace KfwMastr

/-- Round-half-to-even of a rational to an integer (the rounding mode used by
`np.round`). -/
def roundHalfEven (q : ℚ) : ℤ :=
  if q - ⌊q⌋ < 1/2 then ⌊q⌋
  else if 1/2 < q - ⌊q⌋ then ⌊q⌋ + 1
  else if Even ⌊q⌋ then ⌊q⌋ else ⌊q⌋ + 1

/-- `np.round(q, d)`: round to `d` decimal places, ties to even. -/
def npRound (d : ℕ) (q : ℚ) : ℚ :=
  (roundHalfEven (q * 10 ^ d) : ℚ) / 10 ^ d

/-- `np.mean` on the rational embedding (division by zero yields `0` for the
empty list; every use below is on nonempty data). -/
def npMean (xs : List ℚ) : ℚ := xs.sum / xs.length

/-- The `operation` argument of `compute_monthly_statistics`; only the two
values accepted by the source (any other string raises `ValueError` there). -/
inductive MonthlyOp : Type
  | sum
  | mean
  deriving DecidableEq

/-- Apply a `MonthlyOp` to one month slice, as `np.sum` / `np.mean` do. -/
def MonthlyOp.apply : MonthlyOp → List ℚ → ℚ
  | .sum, xs => xs.sum
  | .mean, xs => npMean xs

/-- `hours_in_months` of `compute_monthly_statistics`
(`kfw_mastr/utils/helpers.py:405-424`): month lengths in hours, with February
set to `29 * 24` exactly when the data size is 8784. -/
def hoursInMonths (size : ℕ) : List ℕ :=
  if size = 8784 then
    [31*24, 29*24, 31*24, 30*24, 31*24, 30*24, 31*24, 31*24, 30*24, 31*24, 30*24, 31*24]
  else
    [31*24, 28*24, 31*24, 30*24, 31*24, 30*24, 31*24, 31*24, 30*24, 31*24, 30*24, 31*24]

/-- The slicing loop of `compute_monthly_statistics`: starting at `start`,
take `data[start:start+h]` for each month length `h` and apply the operation.
`data[s:e]` is `(data.drop s).take (e - s)` on lists. -/
def monthlyLoop (data : List ℚ) (op : MonthlyOp) : ℕ → List ℕ → List ℚ
  | _, [] => []
  | start, h :: rest =>
      op.apply ((data.drop start).take h) :: monthlyLoop data op (start + h) rest

/-- `compute_monthly_statistics(data, operation)`
(`kfw_mastr/utils/helpers.py:389-439`). -/
def compute_monthly_statistics (data : List ℚ) (op : MonthlyOp) : List ℚ :=
  monthlyLoop data op 0 (hoursInMonths data.length)

/-- The consecutive month slices of `data`: `data[0:h₁]`, `data[h₁:h₁+h₂]`, …
Stated via repeated take/drop, which is what the index arithmetic of the
source loop computes. -/
def monthSlices : List ℕ → List ℚ → List (List ℚ)
  | [], _ => []
  | h :: rest, data => data.take h :: monthSlices rest (data.drop h)

/-! ## Curtailment configuration (`get_curtailment`, helpers.py:442-484) -/

/-- The observable content of the per-technology curtailment environment
variable: the literal string `"None"`, a string parsing to a (finite) float
`f`, or a string `float()` rejects with `ValueError`. -/
inductive CurtailEnv : Type
  | noneLit
  | numeric (f : ℚ)
  | nonNumeric (s : String)
  deriving DecidableEq

/-- `get_curtailment` (helpers.py:442-484).  Returns `Except.error` when the
Python function raises: in the `except ValueError` branch the warning f-string
reads the local `curtailment`, which was never assigned because
`float(curtailment_env)` raised, so the handler itself raises
`UnboundLocalError`. -/
def get_curtailment : CurtailEnv → Except String (Option ℚ)
  | .noneLit => .ok none
  | .numeric f =>
      if 0 ≤ 1 - f ∧ 1 - f ≤ 1 then .ok (some (1 - f))
      else .ok none
  | .nonNumeric _ => .error "UnboundLocalError"

/-! ## Capacity-factor reducers (wind.py:219-317, solar.py:233-307)

The reducers receive the optional curtailment multiplier produced by
`get_curtailment` (`None` or `1 - fraction`).  `if curtailment:` in Python is
false for `None` and for the float `0.0`. -/

/-- Python truthiness of the optional curtailment multiplier. -/
def pyTruthy : Option ℚ → Bool
  | none => false
  | some q => q ≠ 0

/-- The numeric fields of the records appended by the wind reducer. -/
structure WindReduction where
  /-- `power_mastrid_hourly = cf_hourly * net_capacity` (wind.py:296-299),
  the hourly energy series stored in the hourly record. -/
  hourlyEnergy : List ℚ
  /-- `cf_hourly` as stored (wind.py:300). -/
  hourlyCf : List ℚ
  /-- `power_sum_masterid_monthly` (wind.py:284-288). -/
  monthlyEnergy : List ℚ
  /-- `cf_ave_monthly` (wind.py:289-293). -/
  monthlyCf : List ℚ
  /-- `power_sum_mastrid_yearly` (wind.py:280). -/
  yearlyEnergy : ℚ
  /-- `cf_ave_yearly` (wind.py:281). -/
  yearlyCf : ℚ
  deriving DecidableEq

/-- `WindCalc.calc_capacity_factor_wind` (wind.py:219-317), numeric part.
Mirrors the source line by line:
`max_power_power_curve = max_power_power_curve / 1000`;
`power_hourly = np.round(power, 4) / 1000` (then `np.nan_to_num`, identity on
the NaN-free embedding); `if curtailment: power_hourly = np.round(power, 4) *
curtailment` — note the source drops the `/ 1000` in this branch;
`cf_hourly = np.round(power_hourly / max_power_power_curve, 4)`. -/
def calc_capacity_factor_wind (power : List ℚ) (max_power_power_curve : ℚ)
    (net_capacity : ℚ) (curtailment : Option ℚ) : WindReduction :=
  let maxPower := max_power_power_curve / 1000
  let powerHourly :=
    if pyTruthy curtailment then
      power.map (fun p => npRound 4 p * curtailment.getD 0)
    else
      power.map (fun p => npRound 4 p / 1000)
  let cfHourly := powerHourly.map (fun p => npRound 4 (p / maxPower))
  { hourlyEnergy := cfHourly.map (· * net_capacity)
    hourlyCf := cfHourly
    monthlyEnergy := (compute_monthly_statistics powerHourly .sum).map (npRound 4)
    monthlyCf := (compute_monthly_statistics cfHourly .mean).map (npRound 4)
    yearlyEnergy := npRound 0 powerHourly.sum
    yearlyCf := npRound 4 (npMean cfHourly) }

/-- The numeric fields of the records appended by the solar reducer. -/
structure SolarReduction where
  /-- The hourly energy stored in the hourly record: solar.py:299 reassigns
  `power_mastrid_hourly = power_h_module.tolist()` before the append, so the
  stored series is the per-module power, not `cf_hourly * net_capacity`. -/
  hourlyEnergy : List ℚ
  /-- `cf_hourly` as stored (solar.py:300). -/
  hourlyCf : List ℚ
  /-- `power_sum_masterid_monthly` (solar.py:284-288). -/
  monthlyEnergy : List ℚ
  /-- `cf_ave_monthly` (solar.py:289-293). -/
  monthlyCf : List ℚ
  /-- `power_sum_mastrid_yearly` (solar.py:296). -/
  yearlyEnergy : ℚ
  /-- `cf_ave_yearly` (solar.py:297). -/
  yearlyCf : ℚ
  deriving DecidableEq

/-- `calc_capacity_factor` (solar.py:233-307), numeric part.  `pvm_max_power`
(the reference-module maximum power computed once at module load from the
Sandia catalog, solar.py:56) is passed as a parameter.
`power_h_module = np.round(power, 4)` (then `np.nan_to_num`, identity here);
`if curtailment: power_h_module = np.round(power, 4) * curtailment`;
`cf_hourly = np.round(power_h_module / pvm_max_power, 4)`;
`power_mastrid_hourly = cf_hourly * net_capacity` feeds the monthly and yearly
sums, but the hourly record stores `power_h_module` (solar.py:299). -/
def calc_capacity_factor (power : List ℚ) (pvm_max_power : ℚ)
    (net_capacity : ℚ) (curtailment : Option ℚ) : SolarReduction :=
  let powerHModule :=
    if pyTruthy curtailment then
      power.map (fun p => npRound 4 p * curtailment.getD 0)
    else
      power.map (npRound 4)
  let cfHourly := powerHModule.map (fun p => npRound 4 (p / pvm_max_power))
  let powerMastridHourly := cfHourly.map (· * net_capacity)
  { hourlyEnergy := powerHModule
    hourlyCf := cfHourly
    monthlyEnergy := (compute_monthly_statistics powerMastridHourly .sum).map (npRound 4)
    monthlyCf := (compute_monthly_statistics cfHourly .mean).map (npRound 4)
    yearlyEnergy := npRound 0 powerMastridHourly.sum
    yearlyCf := npRound 4 (npMean cfHourly) }

/-! ## Power-curve lookup (`WindCalc.get_power`, wind.py:82-139) -/

/-- Result of `get_power`: the Python function returns either the bare scalar
`0` (cut-off branch, wind.py:132) or the pair
`(power_output_at_vhh, power_output_turbine_max)` (wind.py:139). -/
inductive GetPowerResult : Type
  | scalarZero
  | pair (power : ℚ) (maxPower : ℚ)
  deriving DecidableEq

/-- The valid `(wind_speed, power)` samples of a power-curve row: NaN power
entries (modelled as `none`) are removed, as `valid_power_indices`
does (wind.py:119-121). -/
def validPoints (speeds : List ℚ) (powers : List (Option ℚ)) : List (ℚ × ℚ) :=
  (speeds.zip powers).filterMap (fun sp => sp.2.map (fun p => (sp.1, p)))

/-- `np.interp` over an increasing sample list: clamp below the first and
above the last sample, linear interpolation in between. -/
def npInterp (x : ℚ) : List (ℚ × ℚ) → ℚ
  | [] => 0
  | [(_, y)] => y
  | (x1, y1) :: (x2, y2) :: rest =>
      if x < x1 then y1
      else if x ≤ x2 then y1 + (y2 - y1) * (x - x1) / (x2 - x1)
      else npInterp x ((x2, y2) :: rest)

/-- `WindCalc.get_power(v_hh_norm, turbine_type, cut_off,
turbine_cut_off_wind_speed_flex)` (wind.py:82-139).  The power-curve row for
the turbine type is passed as the parallel lists `speeds` / `powers`.
`wind_speed_at_last_power` is `wind_speeds_valid[len(power_outputs_valid)-1]`,
i.e. the last valid sample's speed; `power_output_turbine_max` is
`np.nanmax(power_outputs)`. -/
def get_power (speeds : List ℚ) (powers : List (Option ℚ)) (v_hh_norm : ℚ)
    (cut_off : Bool) (turbine_cut_off_wind_speed_flex : ℚ) : GetPowerResult :=
  let valid := validPoints speeds powers
  let powerOutputTurbineMax := ((valid.map Prod.snd).max?).getD 0
  let windSpeedAtLastPower := ((valid.map Prod.fst).getLast?).getD 0
  if cut_off ∧ v_hh_norm > windSpeedAtLastPower + turbine_cut_off_wind_speed_flex then
    .scalarZero
  else
    .pair (npInterp v_hh_norm valid) powerOutputTurbineMax

/-- `WindCalc.calculate_power` (wind.py:141-185) restricted to the lookup: it
calls `self.get_power(v_hh_norm, turbine_type)` with the default
`cut_off=False` and `turbine_cut_off_wind_speed_flex=1` (wind.py:183).  The
hub-height normalisation producing `v_hh_norm` involves logarithms and cube
roots and is abstracted as the rational input `v_hh_norm`. -/
def calculate_power (speeds : List ℚ) (powers : List (Option ℚ))
    (v_hh_norm : ℚ) : GetPowerResult :=
  get_power speeds powers v_hh_norm false 1

/-! ## Leap-year adjustment of the solar-angle series
(calculate_cf_solar.py:85-96)

The angle series are loaded once, before the year loop, for the leap
reference year 2000 (8784 hourly entries).  Inside the year loop, for a
non-leap year, a boolean mask of length 8784 with the 29 February positions
(`24*59 .. 24*60-1`) cleared is applied to the *stored* series, replacing
them in the shared dict.  Pandas raises `IndexError` when a boolean mask's
length differs from the series length.  Years are modelled by their leap
flag, series by their value lists. -/

/-- One application of the February-29 mask to an angle series. -/
def dropFeb29 (s : List ℚ) : Except String (List ℚ) :=
  if s.length = 8784 then .ok (s.take (24*59) ++ s.drop (24*60))
  else .error "IndexError"

/-- The angle series used in each year of the year loop, threading the
in-place update of `solar_angles_dict` from one year to the next.  Returns
the per-year series actually passed to `solar_calculations`, or the pandas
error raised by the masking. -/
def anglesUsed : List Bool → List ℚ → Except String (List (List ℚ))
  | [], _ => .ok []
  | leap :: rest, s =>
      if leap then (anglesUsed rest s).map (s :: ·)
      else
        match dropFeb29 s with
        | .error e => .error e
        | .ok s' => (anglesUsed rest s').map (s' :: ·)

/-! ## Aggregation SQL (`aggregate`, aggregator.py:274-471)

List semantics for the SQL aggregates used by the `aggregate` function:
`SUM` and `AVG` ignore NULLs and are NULL on all-NULL input; `*` and `/`
propagate NULL; `CASE WHEN sum(w) > 0 THEN sum(x*w)/sum(w) ELSE NULL END`
falls to the ELSE branch when the condition is false or unknown. -/

/-- SQL `SUM` over a column. -/
def sqlSum (xs : List (Option ℚ)) : Option ℚ :=
  let vs := xs.filterMap id
  if vs.isEmpty then none else some vs.sum

/-- SQL `AVG` over a column. -/
def sqlAvg (xs : List (Option ℚ)) : Option ℚ :=
  let vs := xs.filterMap id
  if vs.isEmpty then none else some (vs.sum / vs.length)

/-- SQL NULL-propagating multiplication. -/
def sqlMul (a b : Option ℚ) : Option ℚ := a.bind (fun x => b.map (fun y => x * y))

/-- `case when sum(w) > 0 then sum(x * w) / sum(w) else Null end`
(aggregator.py:357-359, 380-386, 399-405): the power-weighted average of the
values `x` with weights `w` over the rows of one group. -/
def powerWeightedAvg (rows : List (Option ℚ × Option ℚ)) : Option ℚ :=
  match sqlSum (rows.map Prod.snd) with
  | none => none
  | some s =>
      if 0 < s then (sqlSum (rows.map (fun r => sqlMul r.1 r.2))).map (· / s)
      else none

/-- A row of the per-unit staging table `tmp_agg_{tech}_all`
(aggregator.py:328-345), restricted to the columns the claims use; `geo` is
the active aggregation level's key (`ags`, `plz` or `bl`). -/
structure Tab1Row where
  einheitMastrNummer : ℕ
  nettonennleistung : Option ℚ
  geo : ℕ
  inbetriebnahmejahr : ℤ
  stilllegungJahr : ℤ
  avgCf : Option ℚ
  deriving DecidableEq

/-- The `Calculation_{tech}` columns the staging query reads before applying
its CASE defaults. -/
structure ClcRow where
  einheitMastrNummer : ℕ
  nettonennleistung : Option ℚ
  geo : ℕ
  inbetriebnahmedatumYear : Option ℤ
  datumEndgueltigeStilllegungYear : Option ℤ
  avgCf : Option ℚ
  deriving DecidableEq

/-- The staging projection (aggregator.py:336-338): `Inbetriebnahmejahr` is
the commissioning year or `-1` when the date is NULL; `Stilllegung_jahr` is
the decommissioning year or `9999` when the date is NULL. -/
def toTab1 (c : ClcRow) : Tab1Row :=
  { einheitMastrNummer := c.einheitMastrNummer
    nettonennleistung := c.nettonennleistung
    geo := c.geo
    inbetriebnahmejahr := match c.inbetriebnahmedatumYear with
      | some y => y
      | none => -1
    stilllegungJahr := match c.datumEndgueltigeStilllegungYear with
      | some y => y
      | none => 9999
    avgCf := c.avgCf }

/-- A row of `results_{tech}_yearly` as read by the aggregator. -/
structure YearlyRes where
  einheitMastrNummer : ℕ
  year : ℤ
  cfY : Option ℚ
  energyY : Option ℚ
  deriving DecidableEq

/-- The join of `tmp_agg_act_year_cf` (aggregator.py:388-391): unit rows
paired with yearly results `on pvs.Inbetriebnahmejahr = res.year and
pvs."EinheitMastrNummer" = res."EinheitMastrNummer"`. -/
def actJoin (units : List Tab1Row) (results : List YearlyRes) :
    List (Tab1Row × YearlyRes) :=
  (units.product results).filter fun p =>
    p.1.inbetriebnahmejahr = p.2.year ∧
    p.1.einheitMastrNummer = p.2.einheitMastrNummer

/-- The join of `tmp_agg_run_year_cf` (aggregator.py:407-413): `on
pvs.Inbetriebnahmejahr <= res.year and res.year < Stilllegung_jahr and
pvs."EinheitMastrNummer" = res."EinheitMastrNummer"`; the trailing `where
... res.year is not Null` discards the unmatched rows of the left join, so
the surviving rows are exactly the inner join (`Inbetriebnahmejahr` is never
NULL by construction of the staging table). -/
def runJoin (units : List Tab1Row) (results : List YearlyRes) :
    List (Tab1Row × YearlyRes) :=
  (units.product results).filter fun p =>
    p.1.inbetriebnahmejahr ≤ p.2.year ∧
    p.2.year < p.1.stilllegungJahr ∧
    p.1.einheitMastrNummer = p.2.einheitMastrNummer

/-- The rows of one `GROUP BY (geo, Inbetriebnahmejahr)` group of
`tmp_agg_act_year_cf`. -/
def actGroup (units : List Tab1Row) (results : List YearlyRes) (g : ℕ) (y : ℤ) :
    List (Tab1Row × YearlyRes) :=
  (actJoin units results).filter fun p => p.1.geo = g ∧ p.1.inbetriebnahmejahr = y

/-- The rows of one `GROUP BY (geo, year)` group of `tmp_agg_run_year_cf`. -/
def runGroup (units : List Tab1Row) (results : List YearlyRes) (g : ℕ) (y : ℤ) :
    List (Tab1Row × YearlyRes) :=
  (runJoin units results).filter fun p => p.1.geo = g ∧ p.2.year = y

/-- The aggregate columns of one group of `tmp_agg_{tech}`
(aggregator.py:354-363), the geography-only table copied into
`agg_{tech}_{lvl}`. -/
structure GeoAggCols where
  avgCfGesamt : Option ℚ
  avgCfGesamtPowerWeighted : Option ℚ
  nettonennleistungGesamt : Option ℚ
  anzahlGesamt : ℕ
  deriving DecidableEq

/-- Compute the geography-only aggregate columns from one group's rows. -/
def aggGeoGroup (rows : List Tab1Row) : GeoAggCols :=
  { avgCfGesamt := sqlAvg (rows.map (·.avgCf))
    avgCfGesamtPowerWeighted :=
      powerWeightedAvg (rows.map (fun r => (r.avgCf, r.nettonennleistung)))
    nettonennleistungGesamt := sqlSum (rows.map (·.nettonennleistung))
    anzahlGesamt := rows.length }

/-- The aggregate columns of one group of `tmp_agg_act_year_cf` /
`tmp_agg_run_year_cf` (aggregator.py:377-415); both cohort tables compute the
same select list over their respective joined rows. -/
structure YearAggCols where
  cfY : Option ℚ
  cfYPowerWeighted : Option ℚ
  avgCfY : Option ℚ
  avgCfYPowerWeighted : Option ℚ
  energyY : Option ℚ
  deriving DecidableEq

/-- Compute the geography×year cohort columns from one group's joined rows. -/
def aggYearGroup (rows : List (Tab1Row × YearlyRes)) : YearAggCols :=
  { cfY := sqlAvg (rows.map (·.2.cfY))
    cfYPowerWeighted :=
      powerWeightedAvg (rows.map (fun r => (r.2.cfY, r.1.nettonennleistung)))
    avgCfY := sqlAvg (rows.map (·.1.avgCf))
    avgCfYPowerWeighted :=
      powerWeightedAvg (rows.map (fun r => (r.1.avgCf, r.1.nettonennleistung)))
    energyY := sqlSum (rows.map (·.2.energyY)) }

/-! ## Result records and the per-unit loop
(helpers.py:619-650, calculate_cf_wind.py:22-205, calculate_cf_solar.py:29-186) -/

/-- The `power` / `cf` payload of a results dict: the placeholder branch
passes `[0]` / `0`, the calculation branch passes lists / scalars. -/
inductive Payload : Type
  | scalar (q : ℚ)
  | series (xs : List ℚ)
  deriving DecidableEq

/-- `create_results_dict` (helpers.py:619-650).  `keyPrefix` stands for the
`"h"`/`"m"`/`"y"` key prefix of the energy and cf entries. -/
structure ResultsDict where
  einheitMastrNummer : String
  year : ℤ
  energy : Payload
  cf : Payload
  keyPrefix : String
  softwareVersion : Option String
  outfilePostfix : Option String
  noCalcReason : Option String
  deriving DecidableEq

/-- Ambient configuration read from the environment by the loops. -/
structure RunConfig where
  /-- `os.getenv('SAVE_HOURLY_DATA') == 'True'`. -/
  saveHourlyData : Bool
  /-- `os.getenv('SOFTWARE_VERSION')`. -/
  softwareVersion : Option String
  /-- `os.getenv('OUTFILE_POSTFIX')`. -/
  outfilePostfix : Option String

/-- `create_results_dict(mastrid, year, power, cf, key_prefix,
no_calc_reason)` under configuration `cfg`. -/
def create_results_dict (cfg : RunConfig) (mastrid : String) (year : ℤ)
    (power cf : Payload) (keyPrefix : String) (noCalcReason : Option String) :
    ResultsDict :=
  { einheitMastrNummer := mastrid
    year := year
    energy := power
    cf := cf
    keyPrefix := keyPrefix
    softwareVersion := cfg.softwareVersion
    outfilePostfix := cfg.outfilePostfix
    noCalcReason := noCalcReason }

/-- One row of `wind.load_turbine_data` (wind.py:187-217), in column order. -/
structure WindUnit where
  einheitMastrNummer : String
  turbineMapped : String
  hubHeightMapped : ℚ
  nettonennleistung : ℚ
  era5AgsLat : Option ℚ
  era5AgsLon : Option ℚ
  breitengrad : Option ℚ
  laengengrad : Option ℚ
  deriving DecidableEq

/-- One row of `load_calculation_solar_data` (solar.py:310-353). -/
structure SolarUnit where
  einheitMastrNummer : String
  azimuthAngleMapped : ℚ
  tiltAngleMapped : ℚ
  nettonennleistung : ℚ
  era5AgsLat : Option ℚ
  era5AgsLon : Option ℚ
  breitengrad : Option ℚ
  laengengrad : Option ℚ
  deriving DecidableEq

/-- What one unit appends in one year: optional hourly record (only when
hourly retention is on), monthly record, yearly record, and whether the
physical power model was invoked for it. -/
structure UnitEmission where
  hourly : Option ResultsDict
  monthly : ResultsDict
  yearly : ResultsDict
  modelInvoked : Bool
  deriving DecidableEq

/-- The per-unit body of `calculate_cf_wind` (calculate_cf_wind.py:74-141).
`nearest` abstracts `get_nearest_era5_coordinate` (a database lookup),
`powerModel` abstracts the weather slicing plus `wind.calculate_power` for
the resolved coordinates (returning the hourly power series and
`max_power_power_curve`).  When the stored nearest-grid coordinates are
absent, the source first calls the resolver and then, if the raw latitude or
longitude is `None`, appends one placeholder per granularity (`[0]`, `[0]`
for hourly/monthly, `0`, `0` for yearly) tagged with the reason
`"Missing AGS or other coordinates"` and continues with the next unit. -/
def windUnitEmission (cfg : RunConfig)
    (nearest : Option ℚ → Option ℚ → ℚ × ℚ)
    (powerModel : WindUnit → ℚ × ℚ → List ℚ × ℚ)
    (year : ℤ) (curtailment : Option ℚ) (u : WindUnit) : UnitEmission :=
  let mastrid := u.einheitMastrNummer
  let calcBranch : ℚ × ℚ → UnitEmission := fun coords =>
    let pm := powerModel u coords
    let red := calc_capacity_factor_wind pm.1 pm.2 u.nettonennleistung curtailment
    { hourly :=
        if cfg.saveHourlyData then
          some (create_results_dict cfg mastrid year (.series red.hourlyEnergy)
            (.series red.hourlyCf) "h" none)
        else none
      monthly := create_results_dict cfg mastrid year (.series red.monthlyEnergy)
        (.series red.monthlyCf) "m" none
      yearly := create_results_dict cfg mastrid year (.scalar red.yearlyEnergy)
        (.scalar red.yearlyCf) "y" none
      modelInvoked := true }
  if u.era5AgsLat = none ∨ u.era5AgsLon = none then
    let coords := nearest u.breitengrad u.laengengrad
    if u.breitengrad = none ∨ u.laengengrad = none then
      let reason : Option String := some "Missing AGS or other coordinates"
      { hourly :=
          if cfg.saveHourlyData then
            some (create_results_dict cfg mastrid year (.series [0]) (.series [0]) "h" reason)
          else none
        monthly := create_results_dict cfg mastrid year (.series [0]) (.series [0]) "m" reason
        yearly := create_results_dict cfg mastrid year (.scalar 0) (.scalar 0) "y" reason
        modelInvoked := false }
    else calcBranch coords
  else calcBranch (u.era5AgsLat.getD 0, u.era5AgsLon.getD 0)

/-- The per-unit body of `calculate_cf_solar` (calculate_cf_solar.py:116-175):
same coordinate handling as the wind loop; `powerModel` abstracts the solar
angle lookup plus `solar_calculations`, `pvmMaxPower` the reference-module
maximum. -/
def solarUnitEmission (cfg : RunConfig)
    (nearest : Option ℚ → Option ℚ → ℚ × ℚ)
    (powerModel : SolarUnit → ℚ × ℚ → List ℚ)
    (pvmMaxPower : ℚ)
    (year : ℤ) (curtailment : Option ℚ) (u : SolarUnit) : UnitEmission :=
  let mastrid := u.einheitMastrNummer
  let calcBranch : ℚ × ℚ → UnitEmission := fun coords =>
    let power := powerModel u coords
    let red := calc_capacity_factor power pvmMaxPower u.nettonennleistung curtailment
    { hourly :=
        if cfg.saveHourlyData then
          some (create_results_dict cfg mastrid year (.series red.hourlyEnergy)
            (.series red.hourlyCf) "h" none)
        else none
      monthly := create_results_dict cfg mastrid year (.series red.monthlyEnergy)
        (.series red.monthlyCf) "m" none
      yearly := create_results_dict cfg mastrid year (.scalar red.yearlyEnergy)
        (.scalar red.yearlyCf) "y" none
      modelInvoked := true }
  if u.era5AgsLat = none ∨ u.era5AgsLon = none then
    let coords := nearest u.breitengrad u.laengengrad
    if u.breitengrad = none ∨ u.laengengrad = none then
      let reason : Option String := some "Missing AGS or other coordinates"
      { hourly :=
          if cfg.saveHourlyData then
            some (create_results_dict cfg mastrid year (.series [0]) (.series [0]) "h" reason)
          else none
        monthly := create_results_dict cfg mastrid year (.series [0]) (.series [0]) "m" reason
        yearly := create_results_dict cfg mastrid year (.scalar 0) (.scalar 0) "y" reason
        modelInvoked := false }
    else calcBranch coords
  else calcBranch (u.era5AgsLat.getD 0, u.era5AgsLon.getD 0)

/-! ## Batch commit pipeline (session_funcs.py:92-199, calculate_cf_wind.py:143-196) -/

/-- The conflict policies of `batch_update` used for result records
(session_funcs.py:233-243).  The third policy (`"join"`) targets the spatial
coordinate table, not the result tables, and is not part of the result
pipeline. -/
inductive ConflictAction : Type
  | skipExistingRow
  | update
  deriving DecidableEq

/-- Upsert of one record into a stored table keyed by
`("EinheitMastrNummer", "year")` (session_funcs.py:193, 233-243):
`ON CONFLICT DO NOTHING` for `skip_existing_row`, `ON CONFLICT DO UPDATE` for
`update`. -/
def upsertOne (a : ConflictAction) (store : List ResultsDict) (r : ResultsDict) :
    List ResultsDict :=
  if store.any (fun s =>
      decide (s.einheitMastrNummer = r.einheitMastrNummer ∧ s.year = r.year)) then
    match a with
    | .skipExistingRow => store
    | .update =>
        store.map (fun s =>
          if s.einheitMastrNummer = r.einheitMastrNummer ∧ s.year = r.year then r else s)
  else store ++ [r]

/-- `save_and_commit(session, updates, conflict_action, key, batch_size, ...)`
(session_funcs.py:92-132) acting on one buffer and its stored table:
when `batch_size is None or len(updates) >= batch_size`, every buffered
record is upserted and the buffer is cleared; otherwise nothing happens.
Returns the new `(buffer, stored table)` pair. -/
def save_and_commit (a : ConflictAction) (batchSize : Option ℕ)
    (updates store : List ResultsDict) :
    List ResultsDict × List ResultsDict :=
  if batchSize = none ∨ batchSize.getD 0 ≤ updates.length then
    ([], updates.foldl (upsertOne a) store)
  else (updates, store)

/-- The three buffers and three stored tables of one year's wind run. -/
structure PipeState where
  hourlyBuf : List ResultsDict
  monthlyBuf : List ResultsDict
  yearlyBuf : List ResultsDict
  hourlyStore : List ResultsDict
  monthlyStore : List ResultsDict
  yearlyStore : List ResultsDict
  deriving DecidableEq

/-- Append one unit's emitted records to the loop buffers, leaving the
stored tables untouched: the `updates_*.append(...)` calls of the skip
branch (calculate_cf_wind.py:95-100) and the appends performed inside
`calc_capacity_factor_wind` on the calculation path
(calculate_cf_wind.py:129-141, wind.py). -/
def appendEmission (st : PipeState) (e : UnitEmission) : PipeState :=
  { hourlyBuf := st.hourlyBuf ++ e.hourly.toList
    monthlyBuf := st.monthlyBuf ++ [e.monthly]
    yearlyBuf := st.yearlyBuf ++ [e.yearly]
    hourlyStore := st.hourlyStore
    monthlyStore := st.monthlyStore
    yearlyStore := st.yearlyStore }

/-- One unit of the wind loop (calculate_cf_wind.py:74-167): append the
unit's records to the buffers; a unit skipped for missing coordinates
ends in `continue` (calculate_cf_wind.py:102), which bypasses the three
in-loop `save_and_commit` calls (lines 144-167), so those run only when
the physical model was invoked (`windUnitEmission` sets `modelInvoked`
to `false` exactly on the skip branch). -/
def stepWindUnit (cfg : RunConfig) (nearest : Option ℚ → Option ℚ → ℚ × ℚ)
    (powerModel : WindUnit → ℚ × ℚ → List ℚ × ℚ) (year : ℤ)
    (curtailment : Option ℚ) (a : ConflictAction) (b : ℕ)
    (st : PipeState) (u : WindUnit) : PipeState :=
  let e := windUnitEmission cfg nearest powerModel year curtailment u
  let ap := appendEmission st e
  if e.modelInvoked then
    let h := save_and_commit a (some b) ap.hourlyBuf ap.hourlyStore
    let m := save_and_commit a (some b) ap.monthlyBuf ap.monthlyStore
    let y := save_and_commit a (some b) ap.yearlyBuf ap.yearlyStore
    { hourlyBuf := h.1, monthlyBuf := m.1, yearlyBuf := y.1,
      hourlyStore := h.2, monthlyStore := m.2, yearlyStore := y.2 }
  else ap

/-- The unconditional flush after the unit loop
(calculate_cf_wind.py:170-196): each nonempty buffer is flushed with
`batch_size=None`. -/
def finalFlush (a : ConflictAction) (st : PipeState) : PipeState :=
  let h := if st.hourlyBuf ≠ [] then save_and_commit a none st.hourlyBuf st.hourlyStore
           else (st.hourlyBuf, st.hourlyStore)
  let m := if st.monthlyBuf ≠ [] then save_and_commit a none st.monthlyBuf st.monthlyStore
           else (st.monthlyBuf, st.monthlyStore)
  let y := if st.yearlyBuf ≠ [] then save_and_commit a none st.yearlyBuf st.yearlyStore
           else (st.yearlyBuf, st.yearlyStore)
  { hourlyBuf := h.1, monthlyBuf := m.1, yearlyBuf := y.1,
    hourlyStore := h.2, monthlyStore := m.2, yearlyStore := y.2 }

/-- The state at the head of the unit loop: empty buffers
(`updates_hourly = []` …, calculate_cf_wind.py:70-72) over the pre-existing
stored tables. -/
def windInitState (stores : List ResultsDict × List ResultsDict × List ResultsDict) :
    PipeState :=
  { hourlyBuf := [], monthlyBuf := [], yearlyBuf := [],
    hourlyStore := stores.1, monthlyStore := stores.2.1, yearlyStore := stores.2.2 }

/-- One year of the wind batch pipeline: fold the unit loop from empty
buffers over the given stored tables, then flush. -/
def runYearWind (cfg : RunConfig) (nearest : Option ℚ → Option ℚ → ℚ × ℚ)
    (powerModel : WindUnit → ℚ × ℚ → List ℚ × ℚ) (year : ℤ)
    (curtailment : Option ℚ) (a : ConflictAction) (b : ℕ)
    (units : List WindUnit) (stores : List ResultsDict × List ResultsDict × List ResultsDict) :
    PipeState :=
  finalFlush a (units.foldl (stepWindUnit cfg nearest powerModel year curtailment a b)
    (windInitState stores))

/-- The monthly partition property of one input array: the twelve consecutive
blocks have the stated lengths, tile the whole array with no gap or overlap,
and `compute_monthly_statistics` returns their per-block sums (`sum`) and
means (`mean`). -/
def monthlyPartitionProp (data : List ℚ) (lens : List ℕ) : Prop :=
  (monthSlices (hoursInMonths data.length) data).map List.length = lens ∧
  (monthSlices (hoursInMonths data.length) data).flatten = data ∧
  compute_monthly_statistics data .sum =
    (monthSlices (hoursInMonths data.length) data).map List.sum ∧
  compute_monthly_statistics data .mean =
    (monthSlices (hoursInMonths data.length) data).map npMean

/-- The zero-weight null rule over one geography-only group `g` and one
joined group of each cohort (`ja` as-commissioned, `jr` as-running): every
power-weighted column is NULL while the unweighted averages remain the
numeric mean of the non-NULL member values. -/
def weightedNullRuleProp (g : List Tab1Row) (ja jr : List (Tab1Row × YearlyRes)) : Prop :=
  (aggGeoGroup g).avgCfGesamtPowerWeighted = none ∧
  (aggYearGroup ja).cfYPowerWeighted = none ∧
  (aggYearGroup ja).avgCfYPowerWeighted = none ∧
  (aggYearGroup jr).cfYPowerWeighted = none ∧
  (aggYearGroup jr).avgCfYPowerWeighted = none ∧
  ((g.map (·.avgCf)).filterMap id ≠ [] →
    (aggGeoGroup g).avgCfGesamt =
      some (((g.map (·.avgCf)).filterMap id).sum /
        ((g.map (·.avgCf)).filterMap id).length)) ∧
  ((ja.map (·.2.cfY)).filterMap id ≠ [] →
    (aggYearGroup ja).cfY =
      some (((ja.map (·.2.cfY)).filterMap id).sum /
        ((ja.map (·.2.cfY)).filterMap id).length)) ∧
  ((jr.map (·.1.avgCf)).filterMap id ≠ [] →
    (aggYearGroup jr).avgCfY =
      some (((jr.map (·.1.avgCf)).filterMap id).sum /
        ((jr.map (·.1.avgCf)).filterMap id).length))

/-- A staging row with rated capacity 0 used in the C4 witness group. -/
def zeroCapRow : Tab1Row where
  einheitMastrNummer := 1
  nettonennleistung := some 0
  geo := 7
  inbetriebnahmejahr := 2005
  stilllegungJahr := 9999
  avgCf := some (1/2)

/-- A yearly result row for the commissioning year of `zeroCapRow`. -/
def resRow2005 : YearlyRes where
  einheitMastrNummer := 1
  year := 2005
  cfY := some (3/10)
  energyY := some 5

/-- A yearly result row for a running year of `zeroCapRow`. -/
def resRow2020 : YearlyRes where
  einheitMastrNummer := 1
  year := 2020
  cfY := some (3/10)
  energyY := some 5

/-- The result shape of `get_power` / `calculate_power` for one power-curve
row: with `cut_off=True` and a speed materially above the last valid sample
the result is the bare scalar `0`, never a pair; through `calculate_power`
(default `cut_off=False`) the result is always a pair, and speeds beyond the
last valid sample are clamped to that sample's power. -/
def getPowerShapeProp (speeds : List ℚ) (powers : List (Option ℚ)) (v flex : ℚ) : Prop :=
  (((validPoints speeds powers).map Prod.fst).getLast?.getD 0 + flex < v →
    get_power speeds powers v true flex = .scalarZero ∧
    ∀ p m, get_power speeds powers v true flex ≠ .pair p m) ∧
  (∃ p m, calculate_power speeds powers v = .pair p m) ∧
  (((validPoints speeds powers).map Prod.fst).getLast?.getD 0 < v →
    calculate_power speeds powers v =
      .pair (((validPoints speeds powers).map Prod.snd).getLast?.getD 0)
        (((validPoints speeds powers).map Prod.snd).max?.getD 0))

/-- What C6 asserts of one emission `e` of a unit `mastrid` in year `year`:
a single yearly placeholder with energy 0, capacity factor 0 and a non-null
reason, a matching monthly placeholder, an hourly placeholder only under
hourly retention, and no invocation of the physical model. -/
def skipEmissionProp (cfg : RunConfig) (year : ℤ) (mastrid : String)
    (e : UnitEmission) : Prop :=
  e.yearly = create_results_dict cfg mastrid year (.scalar 0) (.scalar 0) "y"
      (some "Missing AGS or other coordinates") ∧
  e.monthly = create_results_dict cfg mastrid year (.series [0]) (.series [0]) "m"
      (some "Missing AGS or other coordinates") ∧
  e.hourly = (if cfg.saveHourlyData then
      some (create_results_dict cfg mastrid year (.series [0]) (.series [0]) "h"
        (some "Missing AGS or other coordinates"))
    else none) ∧
  e.yearly.noCalcReason ≠ none ∧
  e.yearly.energy = .scalar 0 ∧ e.yearly.cf = .scalar 0 ∧
  e.modelInvoked = false

/-- The C6 conclusion for a wind unit `u` and a solar unit `s` with
unresolved coordinates: both emissions are the tagged placeholders and both
are independent of the physical power model (and, for solar, of the module
maximum). -/
def missingCoordSkipProp (cfg : RunConfig) (nearest : Option ℚ → Option ℚ → ℚ × ℚ)
    (pmW pmW' : WindUnit → ℚ × ℚ → List ℚ × ℚ)
    (pmS pmS' : SolarUnit → ℚ × ℚ → List ℚ) (pvm pvm' : ℚ)
    (year : ℤ) (curt : Option ℚ) (u : WindUnit) (s : SolarUnit) : Prop :=
  skipEmissionProp cfg year u.einheitMastrNummer
    (windUnitEmission cfg nearest pmW year curt u) ∧
  windUnitEmission cfg nearest pmW year curt u =
    windUnitEmission cfg nearest pmW' year curt u ∧
  skipEmissionProp cfg year s.einheitMastrNummer
    (solarUnitEmission cfg nearest pmS pvm year curt s) ∧
  solarUnitEmission cfg nearest pmS pvm year curt s =
    solarUnitEmission cfg nearest pmS' pvm' year curt s

/-- Fixture configuration for the C6 witness: hourly retention on. -/
def cfgW : RunConfig where
  saveHourlyData := true
  softwareVersion := none
  outfilePostfix := none

/-- Fixture nearest-grid resolver. -/
def nearestW : Option ℚ → Option ℚ → ℚ × ℚ := fun _ _ => (0, 0)

/-- Fixture wind power models (two distinct ones). -/
def pmW1 : WindUnit → ℚ × ℚ → List ℚ × ℚ := fun _ _ => ([], 0)

/-- Second fixture wind power model. -/
def pmW2 : WindUnit → ℚ × ℚ → List ℚ × ℚ := fun _ _ => ([1], 1)

/-- Fixture solar power models (two distinct ones). -/
def pmS1 : SolarUnit → ℚ × ℚ → List ℚ := fun _ _ => []

/-- Second fixture solar power model. -/
def pmS2 : SolarUnit → ℚ × ℚ → List ℚ := fun _ _ => [2]

/-- A wind unit with no stored grid coordinates and no raw coordinates. -/
def windUnitNoCoords : WindUnit where
  einheitMastrNummer := "W1"
  turbineMapped := "E-115"
  hubHeightMapped := 100
  nettonennleistung := 2000
  era5AgsLat := none
  era5AgsLon := none
  breitengrad := none
  laengengrad := none

/-- A solar unit with no stored grid coordinates and no raw coordinates. -/
def solarUnitNoCoords : SolarUnit where
  einheitMastrNummer := "S1"
  azimuthAngleMapped := 180
  tiltAngleMapped := 30
  nettonennleistung := 10
  era5AgsLat := none
  era5AgsLon := none
  breitengrad := none
  laengengrad := none

/-- One buffer's view of one unit of the wind loop: append the unit's
(optional) record, then, when the in-loop `save_and_commit` calls run for
this unit (second component of `rf`; false on the `continue` path), apply
`save_and_commit` with the configured batch size. -/
def bufStep (a : ConflictAction) (b : ℕ)
    (p : List ResultsDict × List ResultsDict) (rf : Option ResultsDict × Bool) :
    List ResultsDict × List ResultsDict :=
  if rf.2 then save_and_commit a (some b) (p.1 ++ rf.1.toList) p.2
  else (p.1 ++ rf.1.toList, p.2)

/-- The claim C9 states of one year's wind run with batch size `b`:
(i) at every unit boundary each buffer holds fewer than `b` records;
(ii) after the unconditional final flush all three buffers are empty;
(iii) every stored table equals the fold of the per-record upsert (keyed by
unit ID and year) over the records emitted by the units, in emission order;
(iv) a single unit step empties the monthly/yearly buffer exactly when its
length has just reached `b`.  Parts (i) and (iv) are refuted below: a unit
skipped for missing coordinates appends its placeholders but `continue`s
past the in-loop `save_and_commit` calls. -/
def batchPipelineProp (cfg : RunConfig) (nearest : Option ℚ → Option ℚ → ℚ × ℚ)
    (pm : WindUnit → ℚ × ℚ → List ℚ × ℚ) (year : ℤ) (curt : Option ℚ)
    (a : ConflictAction) (b : ℕ) (units : List WindUnit)
    (stores : List ResultsDict × List ResultsDict × List ResultsDict) : Prop :=
  (∀ k : ℕ,
    ((units.take k).foldl (stepWindUnit cfg nearest pm year curt a b)
      (windInitState stores)).hourlyBuf.length < b ∧
    ((units.take k).foldl (stepWindUnit cfg nearest pm year curt a b)
      (windInitState stores)).monthlyBuf.length < b ∧
    ((units.take k).foldl (stepWindUnit cfg nearest pm year curt a b)
      (windInitState stores)).yearlyBuf.length < b) ∧
  (runYearWind cfg nearest pm year curt a b units stores).hourlyBuf = [] ∧
  (runYearWind cfg nearest pm year curt a b units stores).monthlyBuf = [] ∧
  (runYearWind cfg nearest pm year curt a b units stores).yearlyBuf = [] ∧
  (runYearWind cfg nearest pm year curt a b units stores).yearlyStore =
    (units.map (fun u => (windUnitEmission cfg nearest pm year curt u).yearly)).foldl
      (upsertOne a) stores.2.2 ∧
  (runYearWind cfg nearest pm year curt a b units stores).monthlyStore =
    (units.map (fun u => (windUnitEmission cfg nearest pm year curt u).monthly)).foldl
      (upsertOne a) stores.2.1 ∧
  (runYearWind cfg nearest pm year curt a b units stores).hourlyStore =
    ((units.map (fun u => (windUnitEmission cfg nearest pm year curt u).hourly)).reduceOption).foldl
      (upsertOne a) stores.1 ∧
  (∀ (st : PipeState) (u : WindUnit), st.yearlyBuf.length < b →
    ((stepWindUnit cfg nearest pm year curt a b st u).yearlyBuf = [] ↔
      st.yearlyBuf.length + 1 = b)) ∧
  (∀ (st : PipeState) (u : WindUnit), st.monthlyBuf.length < b →
    ((stepWindUnit cfg nearest pm year curt a b st u).monthlyBuf = [] ↔
      st.monthlyBuf.length + 1 = b))

/-- The amended C9 conclusion for one year's wind run with batch size `b`:
(i) an invocation of `save_and_commit` flushes a buffer to storage and
empties it exactly when the buffer's length has reached `b`, and otherwise
leaves buffer and store unchanged;
(ii) a unit skipped for missing coordinates appends its placeholder records
and leaves the stored tables untouched — its `continue` bypasses the
in-loop `save_and_commit` calls, so across consecutive skipped units a
buffer can reach or exceed `b`;
(iii) after every unit that was not skipped each buffer holds fewer than
`b` records;
(iv) after the unconditional final flush all three buffers are empty;
(v) every stored table equals the fold of the per-record upsert (keyed by
unit ID and year) over the records emitted by the units, in emission
order. -/
def amendedBatchPipelineProp (cfg : RunConfig) (nearest : Option ℚ → Option ℚ → ℚ × ℚ)
    (pm : WindUnit → ℚ × ℚ → List ℚ × ℚ) (year : ℤ) (curt : Option ℚ)
    (a : ConflictAction) (b : ℕ) (units : List WindUnit)
    (stores : List ResultsDict × List ResultsDict × List ResultsDict) : Prop :=
  (∀ buf store : List ResultsDict, b ≤ buf.length →
    save_and_commit a (some b) buf store = ([], buf.foldl (upsertOne a) store)) ∧
  (∀ buf store : List ResultsDict, buf.length < b →
    save_and_commit a (some b) buf store = (buf, store)) ∧
  (∀ (st : PipeState) (u : WindUnit),
    (windUnitEmission cfg nearest pm year curt u).modelInvoked = false →
    stepWindUnit cfg nearest pm year curt a b st u =
      appendEmission st (windUnitEmission cfg nearest pm year curt u)) ∧
  (∀ (st : PipeState) (u : WindUnit),
    (windUnitEmission cfg nearest pm year curt u).modelInvoked = true →
    (stepWindUnit cfg nearest pm year curt a b st u).hourlyBuf.length < b ∧
    (stepWindUnit cfg nearest pm year curt a b st u).monthlyBuf.length < b ∧
    (stepWindUnit cfg nearest pm year curt a b st u).yearlyBuf.length < b) ∧
  (runYearWind cfg nearest pm year curt a b units stores).hourlyBuf = [] ∧
  (runYearWind cfg nearest pm year curt a b units stores).monthlyBuf = [] ∧
  (runYearWind cfg nearest pm year curt a b units stores).yearlyBuf = [] ∧
  (runYearWind cfg nearest pm year curt a b units stores).yearlyStore =
    (units.map (fun u => (windUnitEmission cfg nearest pm year curt u).yearly)).foldl
      (upsertOne a) stores.2.2 ∧
  (runYearWind cfg nearest pm year curt a b units stores).monthlyStore =
    (units.map (fun u => (windUnitEmission cfg nearest pm year curt u).monthly)).foldl
      (upsertOne a) stores.2.1 ∧
  (runYearWind cfg nearest pm year curt a b units stores).hourlyStore =
    ((units.map (fun u => (windUnitEmission cfg nearest pm year curt u).hourly)).reduceOption).foldl
      (upsertOne a) stores.1

theorem monthlyLoop_eq_monthSlices (op : MonthlyOp) :
    ∀ (hs : List ℕ) (data : List ℚ) (start : ℕ),
      monthlyLoop data op start hs = (monthSlices hs (data.drop start)).map op.apply := by
  intro hs
  induction hs with
  | nil => intro data start; simp [monthlyLoop, monthSlices]
  | cons h rest ih =>
      intro data start
      simp only [monthlyLoop, monthSlices, List.map_cons, List.drop_drop]
      rw [ih data (start + h)]

theorem monthSlices_flatten (hs : List ℕ) (data : List ℚ) (h : data.length = hs.sum) :
    (monthSlices hs data).flatten = data := by
  induction hs generalizing data with
  | nil =>
      simp only [List.sum_nil] at h
      simp [monthSlices, List.length_eq_zero.mp h]
  | cons hd tl ih =>
      simp only [monthSlices, List.flatten_cons]
      rw [ih (data.drop hd) (by rw [List.length_drop, h, List.sum_cons]; omega)]
      exact List.take_append_drop hd data

theorem monthSlices_lengths (hs : List ℕ) (data : List ℚ) (h : hs.sum ≤ data.length) :
    (monthSlices hs data).map List.length = hs := by
  induction hs generalizing data with
  | nil => simp [monthSlices]
  | cons hd tl ih =>
      simp only [monthSlices, List.map_cons]
      congr 1
      · simp only [List.sum_cons] at h
        rw [List.length_take]
        omega
      · exact ih (data.drop hd)
          (by rw [List.length_drop]; simp only [List.sum_cons] at h; omega)

/-! # Evaluation helpers -/

theorem roundHalfEven_intCast (n : ℤ) : roundHalfEven (n:ℚ) = n := by
  unfold roundHalfEven
  rw [Int.floor_intCast, sub_self, if_pos (by norm_num)]

theorem npRound_eval (d : ℕ) (q : ℚ) (n : ℤ) (r : ℚ) (h : q * 10 ^ d = (n:ℚ))
    (h2 : (n:ℚ) / 10 ^ d = r) : npRound d q = r := by
  unfold npRound
  rw [h, roundHalfEven_intCast, h2]

theorem npRound_zero (d : ℕ) : npRound d 0 = 0 :=
  npRound_eval d 0 0 0 (by norm_num) (by norm_num)

theorem pyTruthy_some (m : ℚ) (h : m ≠ 0) : pyTruthy (some m) = true := by
  simp [pyTruthy, h]

theorem pyTruthy_some_zero : pyTruthy (some 0) = false := by
  simp [pyTruthy]

/-- Monthly statistics of a series shorter than January's 744 hours: the
whole series lands in the first bucket and the other eleven buckets are
empty. -/
theorem cms_short_sum (data : List ℚ) (h : data.length ≤ 744) :
    compute_monthly_statistics data .sum =
      [data.sum, 0, 0, 0, 0, 0, 0, 0, 0, 0, 0, 0] := by
  have hd : ∀ k : ℕ, 744 ≤ k → data.drop k = [] := fun k hk =>
    List.drop_eq_nil_of_le (le_trans h hk)
  have ht : data.take 744 = data := List.take_of_length_le h
  unfold compute_monthly_statistics
  rw [hoursInMonths, if_neg (by omega)]
  simp [monthlyLoop, MonthlyOp.apply, hd, ht]

/-! # Claims -/

/-- **C1** (code bug).  The claim states that with a curtailment fraction
`c ∈ [0,1]` the hourly energy series equals the uncurtailed series times
`1 - c` elementwise.  Evaluating the reducers at a failing input: for the
wind reducer with raw power `[1000]`, curve maximum `2500`, net capacity
`2000` and fraction `c = 1/2` (multiplier `1/2`), the curtailed branch of
`calc_capacity_factor_wind` skips the `/ 1000` W→kW conversion
(wind.py:274), so the stored hourly energy is `[400000]` instead of the
claimed `800 * (1/2) = 400`.  For the solar reducer with fraction `c = 1`
the multiplier `1 - c = 0` is falsy, so `if curtailment:` skips curtailment
entirely and the stored series is `[100]` instead of the claimed
`100 * (1 - 1) = 0`. -/
theorem C1_curtailment_code_eval :
    (calc_capacity_factor_wind [1000] 2500 2000 (some (1/2))).hourlyEnergy = [400000] ∧
    (calc_capacity_factor_wind [1000] 2500 2000 none).hourlyEnergy = [800] ∧
    ¬ ((400000 : ℚ) = 800 * (1/2)) ∧
    (calc_capacity_factor [100] 200 50 (some 0)).hourlyEnergy = [100] ∧
    (calc_capacity_factor [100] 200 50 none).hourlyEnergy = [100] ∧
    ¬ ((100 : ℚ) = 100 * (1 - 1)) := by
  refine ⟨?_, ?_, by norm_num, ?_, ?_, by norm_num⟩
  · simp only [calc_capacity_factor_wind, pyTruthy_some (1/2) (by norm_num), if_true,
      List.map_cons, List.map_nil, Option.getD_some]
    rw [npRound_eval 4 1000 10000000 1000 (by norm_num) (by norm_num)]
    norm_num
    rw [npRound_eval 4 200 2000000 200 (by norm_num) (by norm_num)]
    norm_num
  · simp only [calc_capacity_factor_wind, pyTruthy, Bool.false_eq_true, if_false,
      List.map_cons, List.map_nil]
    rw [npRound_eval 4 1000 10000000 1000 (by norm_num) (by norm_num)]
    norm_num
    rw [npRound_eval 4 (2/5) 4000 (2/5) (by norm_num) (by norm_num)]
    norm_num
  · simp only [calc_capacity_factor, pyTruthy_some_zero, Bool.false_eq_true, if_false,
      List.map_cons, List.map_nil]
    rw [npRound_eval 4 100 1000000 100 (by norm_num) (by norm_num)]
  · simp only [calc_capacity_factor, pyTruthy, Bool.false_eq_true, if_false,
      List.map_cons, List.map_nil]
    rw [npRound_eval 4 100 1000000 100 (by norm_num) (by norm_num)]

/-- **C2** (code bug).  The claim states that the stored hourly energy is the
rounded hourly capacity factor times the rated capacity `P`, that the stored
monthly/yearly energies are the month-bucket sums / year sum of that
capacity-scaled series, and in particular that a wind unit with capacity
2000 and curve maximum 2500 gets yearly energy = yearly capacity factor ×
2000.  Evaluating the code: for the wind reducer at constant curve-maximum
power (two hours at 2500), the yearly capacity factor is `1` but the stored
yearly energy is the sum of the mapped-turbine kWh series `[5/2, 5/2]`
(wind.py:280), i.e. `5`, not `1 × 2000`; the stored monthly energies
likewise sum the turbine series (`[5, 0, …]`) while the capacity-scaled
series `[2000, 2000]` would give `[4000, 0, …]` (wind.py:284-288).  For the
solar reducer the stored hourly energy is the rounded module power `[100]`
(solar.py:299), not `cf × P = 1/2 × 50 = 25`. -/
theorem C2_energy_scaling_code_eval :
    (calc_capacity_factor_wind [2500, 2500] 2500 2000 none).yearlyCf = 1 ∧
    (calc_capacity_factor_wind [2500, 2500] 2500 2000 none).yearlyEnergy = 5 ∧
    (calc_capacity_factor_wind [2500, 2500] 2500 2000 none).hourlyEnergy = [2000, 2000] ∧
    (calc_capacity_factor_wind [2500, 2500] 2500 2000 none).monthlyEnergy =
      [5, 0, 0, 0, 0, 0, 0, 0, 0, 0, 0, 0] ∧
    (compute_monthly_statistics [2000, 2000] .sum).map (npRound 4) =
      [4000, 0, 0, 0, 0, 0, 0, 0, 0, 0, 0, 0] ∧
    ¬ ((5 : ℚ) = 1 * 2000) ∧ ¬ ((5 : ℚ) = 4000) ∧
    (calc_capacity_factor [100] 200 50 none).hourlyCf = [1/2] ∧
    (calc_capacity_factor [100] 200 50 none).hourlyEnergy = [100] ∧
    ¬ ((100 : ℚ) = 1/2 * 50) := by
  have hph : (if pyTruthy none then
        List.map (fun p => npRound 4 p * (none : Option ℚ).getD 0) [(2500:ℚ), 2500]
      else List.map (fun p => npRound 4 p / 1000) [(2500:ℚ), 2500]) = [5/2, 5/2] := by
    simp only [pyTruthy, Bool.false_eq_true, if_false, List.map_cons, List.map_nil]
    rw [npRound_eval 4 2500 25000000 2500 (by norm_num) (by norm_num)]
    norm_num
  refine ⟨?_, ?_, ?_, ?_, ?_, by norm_num, by norm_num, ?_, ?_, by norm_num⟩
  · simp only [calc_capacity_factor_wind]
    rw [hph]
    simp only [List.map_cons, List.map_nil]
    norm_num
    rw [npRound_eval 4 1 10000 1 (by norm_num) (by norm_num)]
    rw [show npMean [(1:ℚ), 1] = 1 by norm_num [npMean]]
    rw [npRound_eval 4 1 10000 1 (by norm_num) (by norm_num)]
  · simp only [calc_capacity_factor_wind]
    rw [hph]
    rw [show ([(5:ℚ)/2, 5/2].sum) = 5 by norm_num]
    rw [npRound_eval 0 5 5 5 (by norm_num) (by norm_num)]
  · simp only [calc_capacity_factor_wind]
    rw [hph]
    simp only [List.map_cons, List.map_nil]
    norm_num
    rw [npRound_eval 4 1 10000 1 (by norm_num) (by norm_num)]
  · simp only [calc_capacity_factor_wind]
    rw [hph]
    rw [cms_short_sum _ (by simp)]
    simp only [List.map_cons, List.map_nil, npRound_zero]
    rw [show ([(5:ℚ)/2, 5/2].sum) = 5 by norm_num]
    rw [npRound_eval 4 5 50000 5 (by norm_num) (by norm_num)]
  · rw [cms_short_sum _ (by simp)]
    simp only [List.map_cons, List.map_nil, npRound_zero]
    rw [show ([(2000:ℚ), 2000].sum) = 4000 by norm_num]
    rw [npRound_eval 4 4000 40000000 4000 (by norm_num) (by norm_num)]
  · simp only [calc_capacity_factor, pyTruthy, Bool.false_eq_true, if_false,
      List.map_cons, List.map_nil]
    rw [npRound_eval 4 100 1000000 100 (by norm_num) (by norm_num)]
    norm_num
    rw [npRound_eval 4 (1/2) 5000 (1/2) (by norm_num) (by norm_num)]
  · simp only [calc_capacity_factor, pyTruthy, Bool.false_eq_true, if_false,
      List.map_cons, List.map_nil]
    rw [npRound_eval 4 100 1000000 100 (by norm_num) (by norm_num)]

theorem dropFeb29_ok (s : List ℚ) (h : s.length = 8784) :
    dropFeb29 s = .ok (s.take (24*59) ++ s.drop (24*60)) := by
  unfold dropFeb29
  rw [if_pos h]

theorem dropFeb29_ok_length (s : List ℚ) (h : s.length = 8784) :
    (s.take (24*59) ++ s.drop (24*60)).length = 8760 := by
  rw [List.length_append, List.length_take, List.length_drop, h]
  omega

theorem dropFeb29_err (s : List ℚ) (h : s.length = 8760) :
    dropFeb29 s = .error "IndexError" := by
  unfold dropFeb29
  rw [if_neg (by omega)]

/-- **C3** (code bug).  The claim states that at the start of each year's
unit loop the angle series has exactly that simulation year's hour count,
for every year in the list.  The source applies the length-8784 February-29
mask to the series stored in the shared dict, in place
(calculate_cf_solar.py:90-95), and never re-inserts the dropped hours.
Evaluating the year-loop state machine from an 8784-entry reference series:
with two non-leap years (`[false, false]`) the second masking raises
`IndexError` (mask length 8784 against series length 8760), and with a
non-leap year followed by a leap year (`[false, true]`) the leap year is
served a series of 8760 entries instead of 8784. -/
theorem C3_leap_adjust_code_eval (s : List ℚ) (h : s.length = 8784) :
    ∃ s', s'.length = 8760 ∧
      anglesUsed [false, false] s = .error "IndexError" ∧
      anglesUsed [false, true] s = .ok [s', s'] ∧
      ¬ s'.length = 8784 := by
  refine ⟨s.take (24*59) ++ s.drop (24*60), dropFeb29_ok_length s h, ?_, ?_, ?_⟩
  · simp only [anglesUsed, Bool.false_eq_true, if_false, dropFeb29_ok s h,
      dropFeb29_err _ (dropFeb29_ok_length s h), Except.map]
  · simp only [anglesUsed, Bool.false_eq_true, if_false, if_true,
      dropFeb29_ok s h, Except.map]
  · rw [dropFeb29_ok_length s h]
    norm_num

/-- Witness for C3: the concrete 8784-entry angle series of the leap
reference year 2000. -/
theorem C3_leap_adjust_witness :
    (List.replicate 8784 (0:ℚ)).length = 8784 ∧
    ∃ s', s'.length = 8760 ∧
      anglesUsed [false, false] (List.replicate 8784 0) = .error "IndexError" ∧
      anglesUsed [false, true] (List.replicate 8784 0) = .ok [s', s'] ∧
      ¬ s'.length = 8784 :=
  ⟨by rw [List.length_replicate],
   C3_leap_adjust_code_eval _ (by rw [List.length_replicate])⟩

theorem MonthlyOp_apply_sum : MonthlyOp.apply .sum = List.sum := by
  funext xs
  rfl

theorem MonthlyOp_apply_mean : MonthlyOp.apply .mean = npMean := by
  funext xs
  rfl

theorem cms_eq_slices (data : List ℚ) (op : MonthlyOp) :
    compute_monthly_statistics data op =
      (monthSlices (hoursInMonths data.length) data).map op.apply := by
  unfold compute_monthly_statistics
  rw [monthlyLoop_eq_monthSlices, List.drop_zero]

/-- **C8** (confirmed).  For every length-8760 input,
`compute_monthly_statistics` partitions it into 12 consecutive blocks of
744, 672, 744, 720, 744, 720, 744, 744, 720, 744, 720, 744 hours and
returns the per-block sums (`sum`) or means (`mean`); for every length-8784
input the February block is 696 hours and the others unchanged, the blocks
again tiling the whole array. -/
theorem C8_monthly_partition (d760 d784 : List ℚ)
    (h760 : d760.length = 8760) (h784 : d784.length = 8784) :
    monthlyPartitionProp d760 [744, 672, 744, 720, 744, 720, 744, 744, 720, 744, 720, 744] ∧
    monthlyPartitionProp d784 [744, 696, 744, 720, 744, 720, 744, 744, 720, 744, 720, 744] := by
  have hh760 : hoursInMonths d760.length =
      [744, 672, 744, 720, 744, 720, 744, 744, 720, 744, 720, 744] := by
    rw [h760]; decide
  have hh784 : hoursInMonths d784.length =
      [744, 696, 744, 720, 744, 720, 744, 744, 720, 744, 720, 744] := by
    rw [h784]; decide
  constructor
  · unfold monthlyPartitionProp
    rw [hh760]
    refine ⟨monthSlices_lengths _ _ (by rw [h760]; decide),
      monthSlices_flatten _ _ (by rw [h760]; decide), ?_, ?_⟩
    · rw [cms_eq_slices, hh760, MonthlyOp_apply_sum]
    · rw [cms_eq_slices, hh760, MonthlyOp_apply_mean]
  · unfold monthlyPartitionProp
    rw [hh784]
    refine ⟨monthSlices_lengths _ _ (by rw [h784]; decide),
      monthSlices_flatten _ _ (by rw [h784]; decide), ?_, ?_⟩
    · rw [cms_eq_slices, hh784, MonthlyOp_apply_sum]
    · rw [cms_eq_slices, hh784, MonthlyOp_apply_mean]

/-- Witness for C8 at concrete inputs of lengths 8760 and 8784. -/
theorem C8_monthly_partition_witness :
    (List.replicate 8760 (0:ℚ)).length = 8760 ∧
    (List.replicate 8784 (0:ℚ)).length = 8784 ∧
    (monthlyPartitionProp (List.replicate 8760 0)
        [744, 672, 744, 720, 744, 720, 744, 744, 720, 744, 720, 744] ∧
      monthlyPartitionProp (List.replicate 8784 0)
        [744, 696, 744, 720, 744, 720, 744, 744, 720, 744, 720, 744]) :=
  ⟨by rw [List.length_replicate], by rw [List.length_replicate],
   C8_monthly_partition _ _ (by rw [List.length_replicate]) (by rw [List.length_replicate])⟩

/-- **C7** (code bug).  The claim states `get_curtailment` never raises: it
returns the multiplier `1 - f` for a value parsing to a float `f ∈ [0,1]`
and `None` for `'None'`, out-of-range or unparsable values.  The `'None'`,
in-range and out-of-range branches behave as claimed, but for a value
`float()` rejects the `except ValueError` handler's log message reads the
local `curtailment` that was never assigned, so the call raises
`UnboundLocalError` instead of returning `None` — contradicting the
function's own docstring (helpers.py:455: "Returns None if the value ...
cannot be converted to a float"). -/
theorem C7_curtailment_raises_code_eval :
    get_curtailment (.nonNumeric "not_a_float") = .error "UnboundLocalError" ∧
    get_curtailment .noneLit = .ok none ∧
    get_curtailment (.numeric (3/10)) = .ok (some (7/10)) ∧
    get_curtailment (.numeric 2) = .ok none := by
  refine ⟨rfl, rfl, ?_, ?_⟩
  · simp only [get_curtailment]
    rw [if_pos (by norm_num)]
    norm_num
  · simp only [get_curtailment]
    rw [if_neg (by norm_num)]

theorem powerWeightedAvg_of_sum_zero (rows : List (Option ℚ × Option ℚ))
    (h : sqlSum (rows.map Prod.snd) = some 0) : powerWeightedAvg rows = none := by
  unfold powerWeightedAvg
  rw [h]
  norm_num

theorem sqlAvg_of_ne (xs : List (Option ℚ)) (h : ¬ (xs.filterMap id) = []) :
    sqlAvg xs = some ((xs.filterMap id).sum / (xs.filterMap id).length) := by
  unfold sqlAvg
  rw [if_neg (by simpa [List.isEmpty_iff] using h)]

/-- **C4** (confirmed).  In every aggregate table (geography-only and
geography×year, for both cohorts), whenever the summed rated capacity of a
group is zero every power-weighted average capacity factor of that group is
NULL (the `CASE WHEN sum(...) > 0` guard falls to `ELSE NULL`), while the
unweighted average of the same group is still the numeric mean over its
(non-NULL) members. -/
theorem C4_zero_weight_null (g : List Tab1Row) (ja jr : List (Tab1Row × YearlyRes))
    (hg : sqlSum (g.map (·.nettonennleistung)) = some 0)
    (ha : sqlSum (ja.map (·.1.nettonennleistung)) = some 0)
    (hr : sqlSum (jr.map (·.1.nettonennleistung)) = some 0) :
    weightedNullRuleProp g ja jr := by
  refine ⟨?_, ?_, ?_, ?_, ?_, ?_, ?_, ?_⟩
  · exact powerWeightedAvg_of_sum_zero _ (by rw [List.map_map]; exact hg)
  · exact powerWeightedAvg_of_sum_zero _ (by rw [List.map_map]; exact ha)
  · exact powerWeightedAvg_of_sum_zero _ (by rw [List.map_map]; exact ha)
  · exact powerWeightedAvg_of_sum_zero _ (by rw [List.map_map]; exact hr)
  · exact powerWeightedAvg_of_sum_zero _ (by rw [List.map_map]; exact hr)
  · exact fun hne => sqlAvg_of_ne _ hne
  · exact fun hne => sqlAvg_of_ne _ hne
  · exact fun hne => sqlAvg_of_ne _ hne

/-- Witness for C4: one-unit groups with rated capacity 0 and non-NULL
capacity factors. -/
theorem C4_zero_weight_null_witness :
    sqlSum ([zeroCapRow].map (·.nettonennleistung)) = some 0 ∧
    weightedNullRuleProp [zeroCapRow] [(zeroCapRow, resRow2005)]
      [(zeroCapRow, resRow2020)] :=
  ⟨by simp [sqlSum, zeroCapRow],
   C4_zero_weight_null _ _ _ (by simp [sqlSum, zeroCapRow])
     (by simp [sqlSum, zeroCapRow]) (by simp [sqlSum, zeroCapRow])⟩

/-- **C5** (confirmed).  In the geography×year aggregates a unit row pairs
with a year-`y` result row of the as-commissioned join exactly when
`y = Inbetriebnahmejahr` (and the IDs match), and of the as-running join
exactly when `Inbetriebnahmejahr ≤ y` and `y < Stilllegung_jahr` —
commissioning bound inclusive, decommissioning bound strict; the staging
projection takes the decommissioning year as 9999 when the date is NULL
(and the commissioning year as -1 when that date is NULL). -/
theorem C5_cohort_membership (units : List Tab1Row) (results : List YearlyRes)
    (u : Tab1Row) (r : YearlyRes) (g : ℕ) (y : ℤ) :
    ((u, r) ∈ actGroup units results g y ↔
      u ∈ units ∧ r ∈ results ∧ u.einheitMastrNummer = r.einheitMastrNummer ∧
        u.inbetriebnahmejahr = r.year ∧ u.geo = g ∧ u.inbetriebnahmejahr = y) ∧
    ((u, r) ∈ runGroup units results g y ↔
      u ∈ units ∧ r ∈ results ∧ u.einheitMastrNummer = r.einheitMastrNummer ∧
        u.inbetriebnahmejahr ≤ r.year ∧ r.year < u.stilllegungJahr ∧
        u.geo = g ∧ r.year = y) ∧
    (∀ c : ClcRow,
      (toTab1 c).stilllegungJahr = c.datumEndgueltigeStilllegungYear.getD 9999 ∧
      (toTab1 c).inbetriebnahmejahr = c.inbetriebnahmedatumYear.getD (-1)) := by
  refine ⟨?_, ?_, ?_⟩
  · simp only [actGroup, actJoin, List.mem_filter, List.pair_mem_product,
      decide_eq_true_eq]
    tauto
  · simp only [runGroup, runJoin, List.mem_filter, List.pair_mem_product,
      decide_eq_true_eq]
    tauto
  · intro c
    constructor
    · cases h : c.datumEndgueltigeStilllegungYear <;> simp [toTab1, h]
    · cases h : c.inbetriebnahmedatumYear <;> simp [toTab1, h]

theorem chain_head_le_getLastD (x : ℚ) (xs : List ℚ)
    (h : List.Chain' (· < ·) (x :: xs)) : x ≤ ((x :: xs).getLast?).getD 0 := by
  induction xs generalizing x with
  | nil => simp
  | cons y ys ih =>
      rw [List.getLast?_cons_cons]
      exact le_trans (le_of_lt (List.chain'_cons.mp h).1) (ih y (List.chain'_cons.mp h).2)

/-- `np.interp` clamps queries strictly above the last sample to the last
sample's value (for strictly increasing sample abscissae). -/
theorem npInterp_gt_last (pts : List (ℚ × ℚ))
    (hch : List.Chain' (· < ·) (pts.map Prod.fst)) (x : ℚ)
    (hx : ((pts.map Prod.fst).getLast?).getD 0 < x) (hne : pts ≠ []) :
    npInterp x pts = ((pts.map Prod.snd).getLast?).getD 0 := by
  induction pts with
  | nil => exact absurd rfl hne
  | cons p1 tail ih =>
      cases tail with
      | nil =>
          obtain ⟨x1, y1⟩ := p1
          simp [npInterp]
      | cons p2 rest =>
          obtain ⟨x1, y1⟩ := p1
          obtain ⟨x2, y2⟩ := p2
          simp only [List.map_cons, List.getLast?_cons_cons] at hx hch ⊢
          have h12 : x1 < x2 := (List.chain'_cons.mp hch).1
          have hch2 : List.Chain' (· < ·) (x2 :: rest.map Prod.fst) :=
            (List.chain'_cons.mp hch).2
          have h2last : x2 ≤ ((x2 :: rest.map Prod.fst).getLast?).getD 0 :=
            chain_head_le_getLastD x2 (rest.map Prod.fst) hch2
          have hx2 : x2 < x := lt_of_le_of_lt h2last hx
          have hx1 : x1 < x := lt_trans h12 hx2
          show npInterp x ((x1, y1) :: (x2, y2) :: rest) = _
          rw [npInterp, if_neg (not_lt.mpr (le_of_lt hx1)),
            if_neg (not_le.mpr hx2)]
          have := ih (by simp only [List.map_cons]; exact hch2)
            (by simp only [List.map_cons]; exact hx) (by simp)
          simpa only [List.map_cons] using this

/-- **C10** (confirmed).  `get_power` with `cut_off=True` returns the bare
scalar `0` (not a `(power, max)` pair) when the normalised hub-height speed
exceeds the last valid curve speed plus `turbine_cut_off_wind_speed_flex`,
so a two-value destructuring fails on that branch; `calculate_power` always
passes the default `cut_off=False`, so its result is always a pair, with
speeds beyond the last valid sample clamped to that sample's power by
`np.interp`. -/
theorem C10_get_power_shape (speeds : List ℚ) (powers : List (Option ℚ))
    (v flex : ℚ) (hne : validPoints speeds powers ≠ [])
    (hch : List.Chain' (· < ·) ((validPoints speeds powers).map Prod.fst)) :
    getPowerShapeProp speeds powers v flex := by
  refine ⟨?_, ?_, ?_⟩
  · intro hv
    have h : get_power speeds powers v true flex = .scalarZero := by
      simp only [get_power]
      rw [if_pos (by refine ⟨?_, hv⟩; trivial)]
    exact ⟨h, fun p m hpair => by rw [h] at hpair; exact GetPowerResult.noConfusion hpair⟩
  · refine ⟨npInterp v (validPoints speeds powers),
      (((validPoints speeds powers).map Prod.snd).max?).getD 0, ?_⟩
    simp only [calculate_power, get_power]
    rw [if_neg (by simp)]
  · intro hv
    simp only [calculate_power, get_power]
    rw [if_neg (by simp), npInterp_gt_last _ hch v hv hne]

/-- Witness for C10: the curve row with speeds `[1, 2]` and powers
`[10, 20]`, queried at `v = 10` with `flex = 1`. -/
theorem C10_get_power_shape_witness :
    validPoints [1, 2] [some 10, some 20] ≠ [] ∧
    List.Chain' (· < ·) ((validPoints [1, 2] [some 10, some 20]).map Prod.fst) ∧
    getPowerShapeProp [1, 2] [some 10, some 20] 10 1 := by
  have hval : validPoints [1, 2] [some 10, some 20] = [(1, 10), (2, 20)] := rfl
  refine ⟨by rw [hval]; simp, ?_, ?_⟩
  · rw [hval]
    simp only [List.map_cons, List.map_nil]
    norm_num [List.chain'_cons, List.chain'_singleton]
  · exact C10_get_power_shape _ _ _ _ (by rw [hval]; simp)
      (by rw [hval]
          simp only [List.map_cons, List.map_nil]
          norm_num [List.chain'_cons, List.chain'_singleton])

theorem windUnitEmission_skip (cfg : RunConfig)
    (nearest : Option ℚ → Option ℚ → ℚ × ℚ)
    (pm : WindUnit → ℚ × ℚ → List ℚ × ℚ) (year : ℤ) (curt : Option ℚ)
    (u : WindUnit) (h1 : u.era5AgsLat = none ∨ u.era5AgsLon = none)
    (h2 : u.breitengrad = none ∨ u.laengengrad = none) :
    windUnitEmission cfg nearest pm year curt u =
      { hourly := if cfg.saveHourlyData then
            some (create_results_dict cfg u.einheitMastrNummer year (.series [0])
              (.series [0]) "h" (some "Missing AGS or other coordinates"))
          else none
        monthly := create_results_dict cfg u.einheitMastrNummer year (.series [0])
          (.series [0]) "m" (some "Missing AGS or other coordinates")
        yearly := create_results_dict cfg u.einheitMastrNummer year (.scalar 0)
          (.scalar 0) "y" (some "Missing AGS or other coordinates")
        modelInvoked := false } := by
  simp only [windUnitEmission]
  rw [if_pos h1, if_pos h2]

theorem solarUnitEmission_skip (cfg : RunConfig)
    (nearest : Option ℚ → Option ℚ → ℚ × ℚ)
    (pm : SolarUnit → ℚ × ℚ → List ℚ) (pvm : ℚ) (year : ℤ) (curt : Option ℚ)
    (s : SolarUnit) (h1 : s.era5AgsLat = none ∨ s.era5AgsLon = none)
    (h2 : s.breitengrad = none ∨ s.laengengrad = none) :
    solarUnitEmission cfg nearest pm pvm year curt s =
      { hourly := if cfg.saveHourlyData then
            some (create_results_dict cfg s.einheitMastrNummer year (.series [0])
              (.series [0]) "h" (some "Missing AGS or other coordinates"))
          else none
        monthly := create_results_dict cfg s.einheitMastrNummer year (.series [0])
          (.series [0]) "m" (some "Missing AGS or other coordinates")
        yearly := create_results_dict cfg s.einheitMastrNummer year (.scalar 0)
          (.scalar 0) "y" (some "Missing AGS or other coordinates")
        modelInvoked := false } := by
  simp only [solarUnitEmission]
  rw [if_pos h1, if_pos h2]

/-- **C6** (confirmed).  For every year, a unit whose stored nearest-grid
coordinates are absent and whose raw latitude or longitude is null yields
exactly one yearly placeholder record (energy 0, capacity factor 0,
non-null reason), a matching monthly placeholder (and an hourly one only
under hourly retention), and the physical power model is not invoked for it:
the emission is independent of the power-model function.  The per-unit loop
is total on the remaining units, so the run continues. -/
theorem C6_missing_coord_skip (cfg : RunConfig)
    (nearest : Option ℚ → Option ℚ → ℚ × ℚ)
    (pmW pmW' : WindUnit → ℚ × ℚ → List ℚ × ℚ)
    (pmS pmS' : SolarUnit → ℚ × ℚ → List ℚ) (pvm pvm' : ℚ)
    (year : ℤ) (curt : Option ℚ) (u : WindUnit) (s : SolarUnit)
    (hu1 : u.era5AgsLat = none ∨ u.era5AgsLon = none)
    (hu2 : u.breitengrad = none ∨ u.laengengrad = none)
    (hs1 : s.era5AgsLat = none ∨ s.era5AgsLon = none)
    (hs2 : s.breitengrad = none ∨ s.laengengrad = none) :
    missingCoordSkipProp cfg nearest pmW pmW' pmS pmS' pvm pvm' year curt u s := by
  refine ⟨?_,
    by rw [windUnitEmission_skip cfg nearest pmW year curt u hu1 hu2,
      windUnitEmission_skip cfg nearest pmW' year curt u hu1 hu2], ?_,
    by rw [solarUnitEmission_skip cfg nearest pmS pvm year curt s hs1 hs2,
      solarUnitEmission_skip cfg nearest pmS' pvm' year curt s hs1 hs2]⟩
  · rw [windUnitEmission_skip cfg nearest pmW year curt u hu1 hu2]
    exact ⟨rfl, rfl, rfl, by simp [create_results_dict], rfl, rfl, rfl⟩
  · rw [solarUnitEmission_skip cfg nearest pmS pvm year curt s hs1 hs2]
    exact ⟨rfl, rfl, rfl, by simp [create_results_dict], rfl, rfl, rfl⟩

/-- Witness for C6 at the fixture units. -/
theorem C6_missing_coord_skip_witness :
    (windUnitNoCoords.era5AgsLat = none ∨ windUnitNoCoords.era5AgsLon = none) ∧
    (windUnitNoCoords.breitengrad = none ∨ windUnitNoCoords.laengengrad = none) ∧
    (solarUnitNoCoords.era5AgsLat = none ∨ solarUnitNoCoords.era5AgsLon = none) ∧
    (solarUnitNoCoords.breitengrad = none ∨ solarUnitNoCoords.laengengrad = none) ∧
    missingCoordSkipProp cfgW nearestW pmW1 pmW2 pmS1 pmS2 0 1 2020 none
      windUnitNoCoords solarUnitNoCoords :=
  ⟨Or.inl rfl, Or.inl rfl, Or.inl rfl, Or.inl rfl,
   C6_missing_coord_skip cfgW nearestW pmW1 pmW2 pmS1 pmS2 0 1 2020 none
     windUnitNoCoords solarUnitNoCoords (Or.inl rfl) (Or.inl rfl) (Or.inl rfl) (Or.inl rfl)⟩

theorem reduceOption_cons_toList (r? : Option ResultsDict)
    (rs : List (Option ResultsDict)) :
    (r? :: rs).reduceOption = r?.toList ++ rs.reduceOption := by
  cases r? <;>
    simp [List.reduceOption_cons_of_some, List.reduceOption_cons_of_none]

theorem reduceOption_map_some_comp {α β : Type} (l : List α) (g : α → β) :
    (l.map (fun x => some (g x))).reduceOption = l.map g := by
  induction l with
  | nil => rfl
  | cons x xs ih => simp [List.reduceOption_cons_of_some, ih]

theorem foldl_take_drop {α β : Type} (f : β → α → β) (L : List α) (k : ℕ) (init : β) :
    (L.drop k).foldl f ((L.take k).foldl f init) = L.foldl f init := by
  rw [← List.foldl_append, List.take_append_drop]

theorem map_fst_pair_map {α β γ : Type} (l : List α) (f : α → β) (g : α → γ) :
    (l.map (fun x => (f x, g x))).map Prod.fst = l.map f := by
  induction l with
  | nil => rfl
  | cons x xs ih => simp [ih]

theorem save_and_commit_flushes (a : ConflictAction) (b : ℕ)
    (buf store : List ResultsDict) (h : b ≤ buf.length) :
    save_and_commit a (some b) buf store = ([], buf.foldl (upsertOne a) store) := by
  unfold save_and_commit
  rw [if_pos (Or.inr (show (some b).getD 0 ≤ buf.length from h))]

theorem save_and_commit_below (a : ConflictAction) (b : ℕ)
    (buf store : List ResultsDict) (h : buf.length < b) :
    save_and_commit a (some b) buf store = (buf, store) := by
  unfold save_and_commit
  rw [if_neg (not_or.mpr ⟨by simp, show ¬(some b).getD 0 ≤ buf.length from not_le.mpr h⟩)]

theorem bufStep_cases (a : ConflictAction) (b : ℕ)
    (buf store : List ResultsDict) (rf : Option ResultsDict × Bool) :
    bufStep a b (buf, store) rf =
        ([], (buf ++ rf.1.toList).foldl (upsertOne a) store) ∨
      bufStep a b (buf, store) rf = (buf ++ rf.1.toList, store) := by
  unfold bufStep save_and_commit
  dsimp only [Option.getD]
  by_cases h2 : rf.2 = true
  · rw [if_pos h2]
    by_cases hfl : b ≤ (buf ++ rf.1.toList).length
    · rw [if_pos (Or.inr hfl)]
      exact Or.inl rfl
    · rw [if_neg (not_or.mpr ⟨by simp, hfl⟩)]
      exact Or.inr rfl
  · rw [if_neg h2]
    exact Or.inr rfl

theorem bufStep_flush_length_lt (a : ConflictAction) (b : ℕ) (hb : 1 ≤ b)
    (buf store : List ResultsDict) (rf : Option ResultsDict × Bool)
    (h : rf.2 = true) :
    (bufStep a b (buf, store) rf).1.length < b := by
  unfold bufStep save_and_commit
  dsimp only [Option.getD]
  rw [if_pos h]
  by_cases hfl : b ≤ (buf ++ rf.1.toList).length
  · rw [if_pos (Or.inr hfl)]
    simpa using hb
  · rw [if_neg (not_or.mpr ⟨by simp, hfl⟩)]
    exact not_le.mp hfl

theorem stepWindUnit_skip (cfg : RunConfig) (nearest : Option ℚ → Option ℚ → ℚ × ℚ)
    (pm : WindUnit → ℚ × ℚ → List ℚ × ℚ) (year : ℤ) (curt : Option ℚ)
    (a : ConflictAction) (b : ℕ) (st : PipeState) (u : WindUnit)
    (h : (windUnitEmission cfg nearest pm year curt u).modelInvoked = false) :
    stepWindUnit cfg nearest pm year curt a b st u =
      appendEmission st (windUnitEmission cfg nearest pm year curt u) := by
  simp [stepWindUnit, h]

theorem stepWindUnit_hourly (cfg : RunConfig) (nearest : Option ℚ → Option ℚ → ℚ × ℚ)
    (pm : WindUnit → ℚ × ℚ → List ℚ × ℚ) (year : ℤ) (curt : Option ℚ)
    (a : ConflictAction) (b : ℕ) (st : PipeState) (u : WindUnit) :
    ((stepWindUnit cfg nearest pm year curt a b st u).hourlyBuf,
      (stepWindUnit cfg nearest pm year curt a b st u).hourlyStore) =
      bufStep a b (st.hourlyBuf, st.hourlyStore)
        ((windUnitEmission cfg nearest pm year curt u).hourly,
          (windUnitEmission cfg nearest pm year curt u).modelInvoked) := by
  cases h : (windUnitEmission cfg nearest pm year curt u).modelInvoked <;>
    simp [stepWindUnit, appendEmission, bufStep, h]

theorem stepWindUnit_monthly (cfg : RunConfig) (nearest : Option ℚ → Option ℚ → ℚ × ℚ)
    (pm : WindUnit → ℚ × ℚ → List ℚ × ℚ) (year : ℤ) (curt : Option ℚ)
    (a : ConflictAction) (b : ℕ) (st : PipeState) (u : WindUnit) :
    ((stepWindUnit cfg nearest pm year curt a b st u).monthlyBuf,
      (stepWindUnit cfg nearest pm year curt a b st u).monthlyStore) =
      bufStep a b (st.monthlyBuf, st.monthlyStore)
        (some (windUnitEmission cfg nearest pm year curt u).monthly,
          (windUnitEmission cfg nearest pm year curt u).modelInvoked) := by
  cases h : (windUnitEmission cfg nearest pm year curt u).modelInvoked <;>
    simp [stepWindUnit, appendEmission, bufStep, h]

theorem stepWindUnit_yearly (cfg : RunConfig) (nearest : Option ℚ → Option ℚ → ℚ × ℚ)
    (pm : WindUnit → ℚ × ℚ → List ℚ × ℚ) (year : ℤ) (curt : Option ℚ)
    (a : ConflictAction) (b : ℕ) (st : PipeState) (u : WindUnit) :
    ((stepWindUnit cfg nearest pm year curt a b st u).yearlyBuf,
      (stepWindUnit cfg nearest pm year curt a b st u).yearlyStore) =
      bufStep a b (st.yearlyBuf, st.yearlyStore)
        (some (windUnitEmission cfg nearest pm year curt u).yearly,
          (windUnitEmission cfg nearest pm year curt u).modelInvoked) := by
  cases h : (windUnitEmission cfg nearest pm year curt u).modelInvoked <;>
    simp [stepWindUnit, appendEmission, bufStep, h]

theorem foldl_stepWindUnit_hourly (cfg : RunConfig)
    (nearest : Option ℚ → Option ℚ → ℚ × ℚ) (pm : WindUnit → ℚ × ℚ → List ℚ × ℚ)
    (year : ℤ) (curt : Option ℚ) (a : ConflictAction) (b : ℕ) :
    ∀ (units : List WindUnit) (st : PipeState),
      ((units.foldl (stepWindUnit cfg nearest pm year curt a b) st).hourlyBuf,
        (units.foldl (stepWindUnit cfg nearest pm year curt a b) st).hourlyStore) =
        (units.map (fun u => ((windUnitEmission cfg nearest pm year curt u).hourly,
            (windUnitEmission cfg nearest pm year curt u).modelInvoked))).foldl
          (bufStep a b) (st.hourlyBuf, st.hourlyStore) := by
  intro units
  induction units with
  | nil => intro st; rfl
  | cons u us ih =>
      intro st
      rw [List.foldl_cons, List.map_cons, List.foldl_cons,
        ih (stepWindUnit cfg nearest pm year curt a b st u),
        stepWindUnit_hourly cfg nearest pm year curt a b st u]

theorem foldl_stepWindUnit_monthly (cfg : RunConfig)
    (nearest : Option ℚ → Option ℚ → ℚ × ℚ) (pm : WindUnit → ℚ × ℚ → List ℚ × ℚ)
    (year : ℤ) (curt : Option ℚ) (a : ConflictAction) (b : ℕ) :
    ∀ (units : List WindUnit) (st : PipeState),
      ((units.foldl (stepWindUnit cfg nearest pm year curt a b) st).monthlyBuf,
        (units.foldl (stepWindUnit cfg nearest pm year curt a b) st).monthlyStore) =
        (units.map (fun u => (some (windUnitEmission cfg nearest pm year curt u).monthly,
            (windUnitEmission cfg nearest pm year curt u).modelInvoked))).foldl
          (bufStep a b) (st.monthlyBuf, st.monthlyStore) := by
  intro units
  induction units with
  | nil => intro st; rfl
  | cons u us ih =>
      intro st
      rw [List.foldl_cons, List.map_cons, List.foldl_cons,
        ih (stepWindUnit cfg nearest pm year curt a b st u),
        stepWindUnit_monthly cfg nearest pm year curt a b st u]

theorem foldl_stepWindUnit_yearly (cfg : RunConfig)
    (nearest : Option ℚ → Option ℚ → ℚ × ℚ) (pm : WindUnit → ℚ × ℚ → List ℚ × ℚ)
    (year : ℤ) (curt : Option ℚ) (a : ConflictAction) (b : ℕ) :
    ∀ (units : List WindUnit) (st : PipeState),
      ((units.foldl (stepWindUnit cfg nearest pm year curt a b) st).yearlyBuf,
        (units.foldl (stepWindUnit cfg nearest pm year curt a b) st).yearlyStore) =
        (units.map (fun u => (some (windUnitEmission cfg nearest pm year curt u).yearly,
            (windUnitEmission cfg nearest pm year curt u).modelInvoked))).foldl
          (bufStep a b) (st.yearlyBuf, st.yearlyStore) := by
  intro units
  induction units with
  | nil => intro st; rfl
  | cons u us ih =>
      intro st
      rw [List.foldl_cons, List.map_cons, List.foldl_cons,
        ih (stepWindUnit cfg nearest pm year curt a b st u),
        stepWindUnit_yearly cfg nearest pm year curt a b st u]

theorem foldl_stepWindUnit_hourlyBuf (cfg : RunConfig)
    (nearest : Option ℚ → Option ℚ → ℚ × ℚ) (pm : WindUnit → ℚ × ℚ → List ℚ × ℚ)
    (year : ℤ) (curt : Option ℚ) (a : ConflictAction) (b : ℕ)
    (units : List WindUnit) (st : PipeState) :
    (units.foldl (stepWindUnit cfg nearest pm year curt a b) st).hourlyBuf =
      ((units.map (fun u => ((windUnitEmission cfg nearest pm year curt u).hourly,
          (windUnitEmission cfg nearest pm year curt u).modelInvoked))).foldl
        (bufStep a b) (st.hourlyBuf, st.hourlyStore)).1 :=
  congrArg Prod.fst (foldl_stepWindUnit_hourly cfg nearest pm year curt a b units st)

theorem foldl_stepWindUnit_hourlyStore (cfg : RunConfig)
    (nearest : Option ℚ → Option ℚ → ℚ × ℚ) (pm : WindUnit → ℚ × ℚ → List ℚ × ℚ)
    (year : ℤ) (curt : Option ℚ) (a : ConflictAction) (b : ℕ)
    (units : List WindUnit) (st : PipeState) :
    (units.foldl (stepWindUnit cfg nearest pm year curt a b) st).hourlyStore =
      ((units.map (fun u => ((windUnitEmission cfg nearest pm year curt u).hourly,
          (windUnitEmission cfg nearest pm year curt u).modelInvoked))).foldl
        (bufStep a b) (st.hourlyBuf, st.hourlyStore)).2 :=
  congrArg Prod.snd (foldl_stepWindUnit_hourly cfg nearest pm year curt a b units st)

theorem foldl_stepWindUnit_monthlyBuf (cfg : RunConfig)
    (nearest : Option ℚ → Option ℚ → ℚ × ℚ) (pm : WindUnit → ℚ × ℚ → List ℚ × ℚ)
    (year : ℤ) (curt : Option ℚ) (a : ConflictAction) (b : ℕ)
    (units : List WindUnit) (st : PipeState) :
    (units.foldl (stepWindUnit cfg nearest pm year curt a b) st).monthlyBuf =
      ((units.map (fun u => (some (windUnitEmission cfg nearest pm year curt u).monthly,
          (windUnitEmission cfg nearest pm year curt u).modelInvoked))).foldl
        (bufStep a b) (st.monthlyBuf, st.monthlyStore)).1 :=
  congrArg Prod.fst (foldl_stepWindUnit_monthly cfg nearest pm year curt a b units st)

theorem foldl_stepWindUnit_monthlyStore (cfg : RunConfig)
    (nearest : Option ℚ → Option ℚ → ℚ × ℚ) (pm : WindUnit → ℚ × ℚ → List ℚ × ℚ)
    (year : ℤ) (curt : Option ℚ) (a : ConflictAction) (b : ℕ)
    (units : List WindUnit) (st : PipeState) :
    (units.foldl (stepWindUnit cfg nearest pm year curt a b) st).monthlyStore =
      ((units.map (fun u => (some (windUnitEmission cfg nearest pm year curt u).monthly,
          (windUnitEmission cfg nearest pm year curt u).modelInvoked))).foldl
        (bufStep a b) (st.monthlyBuf, st.monthlyStore)).2 :=
  congrArg Prod.snd (foldl_stepWindUnit_monthly cfg nearest pm year curt a b units st)

theorem foldl_stepWindUnit_yearlyBuf (cfg : RunConfig)
    (nearest : Option ℚ → Option ℚ → ℚ × ℚ) (pm : WindUnit → ℚ × ℚ → List ℚ × ℚ)
    (year : ℤ) (curt : Option ℚ) (a : ConflictAction) (b : ℕ)
    (units : List WindUnit) (st : PipeState) :
    (units.foldl (stepWindUnit cfg nearest pm year curt a b) st).yearlyBuf =
      ((units.map (fun u => (some (windUnitEmission cfg nearest pm year curt u).yearly,
          (windUnitEmission cfg nearest pm year curt u).modelInvoked))).foldl
        (bufStep a b) (st.yearlyBuf, st.yearlyStore)).1 :=
  congrArg Prod.fst (foldl_stepWindUnit_yearly cfg nearest pm year curt a b units st)

theorem foldl_stepWindUnit_yearlyStore (cfg : RunConfig)
    (nearest : Option ℚ → Option ℚ → ℚ × ℚ) (pm : WindUnit → ℚ × ℚ → List ℚ × ℚ)
    (year : ℤ) (curt : Option ℚ) (a : ConflictAction) (b : ℕ)
    (units : List WindUnit) (st : PipeState) :
    (units.foldl (stepWindUnit cfg nearest pm year curt a b) st).yearlyStore =
      ((units.map (fun u => (some (windUnitEmission cfg nearest pm year curt u).yearly,
          (windUnitEmission cfg nearest pm year curt u).modelInvoked))).foldl
        (bufStep a b) (st.yearlyBuf, st.yearlyStore)).2 :=
  congrArg Prod.snd (foldl_stepWindUnit_yearly cfg nearest pm year curt a b units st)

theorem stepWindUnit_hourlyBuf (cfg : RunConfig) (nearest : Option ℚ → Option ℚ → ℚ × ℚ)
    (pm : WindUnit → ℚ × ℚ → List ℚ × ℚ) (year : ℤ) (curt : Option ℚ)
    (a : ConflictAction) (b : ℕ) (st : PipeState) (u : WindUnit) :
    (stepWindUnit cfg nearest pm year curt a b st u).hourlyBuf =
      (bufStep a b (st.hourlyBuf, st.hourlyStore)
        ((windUnitEmission cfg nearest pm year curt u).hourly,
          (windUnitEmission cfg nearest pm year curt u).modelInvoked)).1 :=
  congrArg Prod.fst (stepWindUnit_hourly cfg nearest pm year curt a b st u)

theorem stepWindUnit_monthlyBuf (cfg : RunConfig) (nearest : Option ℚ → Option ℚ → ℚ × ℚ)
    (pm : WindUnit → ℚ × ℚ → List ℚ × ℚ) (year : ℤ) (curt : Option ℚ)
    (a : ConflictAction) (b : ℕ) (st : PipeState) (u : WindUnit) :
    (stepWindUnit cfg nearest pm year curt a b st u).monthlyBuf =
      (bufStep a b (st.monthlyBuf, st.monthlyStore)
        (some (windUnitEmission cfg nearest pm year curt u).monthly,
          (windUnitEmission cfg nearest pm year curt u).modelInvoked)).1 :=
  congrArg Prod.fst (stepWindUnit_monthly cfg nearest pm year curt a b st u)

theorem stepWindUnit_yearlyBuf (cfg : RunConfig) (nearest : Option ℚ → Option ℚ → ℚ × ℚ)
    (pm : WindUnit → ℚ × ℚ → List ℚ × ℚ) (year : ℤ) (curt : Option ℚ)
    (a : ConflictAction) (b : ℕ) (st : PipeState) (u : WindUnit) :
    (stepWindUnit cfg nearest pm year curt a b st u).yearlyBuf =
      (bufStep a b (st.yearlyBuf, st.yearlyStore)
        (some (windUnitEmission cfg nearest pm year curt u).yearly,
          (windUnitEmission cfg nearest pm year curt u).modelInvoked)).1 :=
  congrArg Prod.fst (stepWindUnit_yearly cfg nearest pm year curt a b st u)

/-- After any unit for which the in-loop `save_and_commit` calls run
(the physical model was invoked), every buffer holds fewer than `b`
records, whatever their lengths were before. -/
theorem stepWindUnit_invoked_lt (cfg : RunConfig) (nearest : Option ℚ → Option ℚ → ℚ × ℚ)
    (pm : WindUnit → ℚ × ℚ → List ℚ × ℚ) (year : ℤ) (curt : Option ℚ)
    (a : ConflictAction) (b : ℕ) (hb : 1 ≤ b) (st : PipeState) (u : WindUnit)
    (h : (windUnitEmission cfg nearest pm year curt u).modelInvoked = true) :
    (stepWindUnit cfg nearest pm year curt a b st u).hourlyBuf.length < b ∧
    (stepWindUnit cfg nearest pm year curt a b st u).monthlyBuf.length < b ∧
    (stepWindUnit cfg nearest pm year curt a b st u).yearlyBuf.length < b := by
  refine ⟨?_, ?_, ?_⟩
  · rw [stepWindUnit_hourlyBuf cfg nearest pm year curt a b st u]
    exact bufStep_flush_length_lt a b hb st.hourlyBuf st.hourlyStore _ h
  · rw [stepWindUnit_monthlyBuf cfg nearest pm year curt a b st u]
    exact bufStep_flush_length_lt a b hb st.monthlyBuf st.monthlyStore _ h
  · rw [stepWindUnit_yearlyBuf cfg nearest pm year curt a b st u]
    exact bufStep_flush_length_lt a b hb st.yearlyBuf st.yearlyStore _ h

/-- The fundamental batching invariant of one buffer: after any sequence of
appended records (each marked with whether the in-loop commit checks ran),
the buffer is a suffix of the appended stream and the store holds the
upserted prefix, in emission order. -/
theorem bufStep_foldl_split (a : ConflictAction) (b : ℕ) :
    ∀ (rs : List (Option ResultsDict × Bool)) (buf store : List ResultsDict),
      ∃ k, (rs.foldl (bufStep a b) (buf, store)).1 =
          (buf ++ (rs.map Prod.fst).reduceOption).drop k ∧
        (rs.foldl (bufStep a b) (buf, store)).2 =
          ((buf ++ (rs.map Prod.fst).reduceOption).take k).foldl (upsertOne a) store := by
  intro rs
  induction rs with
  | nil =>
      intro buf store
      exact ⟨0, by simp, by simp⟩
  | cons rf rs ih =>
      intro buf store
      rw [List.foldl_cons]
      rcases bufStep_cases a b buf store rf with hstep | hstep
      · rw [hstep]
        obtain ⟨k, h1, h2⟩ := ih [] ((buf ++ rf.1.toList).foldl (upsertOne a) store)
        refine ⟨(buf ++ rf.1.toList).length + k, ?_, ?_⟩
        · rw [h1, List.nil_append, List.map_cons, reduceOption_cons_toList,
            ← List.append_assoc, List.drop_append k]
        · rw [h2, List.nil_append, List.map_cons, reduceOption_cons_toList,
            ← List.append_assoc, List.take_append k]
          simp [List.foldl_append]
      · rw [hstep]
        obtain ⟨k, h1, h2⟩ := ih (buf ++ rf.1.toList) store
        refine ⟨k, ?_, ?_⟩
        · rw [h1, List.map_cons, reduceOption_cons_toList, ← List.append_assoc]
        · rw [h2, List.map_cons, reduceOption_cons_toList, ← List.append_assoc]

theorem flushPair (a : ConflictAction) (buf store : List ResultsDict) :
    (if buf ≠ [] then save_and_commit a none buf store else (buf, store)) =
      ([], buf.foldl (upsertOne a) store) := by
  by_cases h : buf = []
  · rw [if_neg (by simpa using h), h]
    rfl
  · rw [if_pos h]
    unfold save_and_commit
    rw [if_pos (Or.inl rfl)]

theorem finalFlush_spec (a : ConflictAction) (st : PipeState) :
    finalFlush a st =
      { hourlyBuf := [], monthlyBuf := [], yearlyBuf := [],
        hourlyStore := st.hourlyBuf.foldl (upsertOne a) st.hourlyStore,
        monthlyStore := st.monthlyBuf.foldl (upsertOne a) st.monthlyStore,
        yearlyStore := st.yearlyBuf.foldl (upsertOne a) st.yearlyStore } := by
  simp only [finalFlush, flushPair]

/-- **C9** (counterexample).  The claimed boundary invariant is false of the
code: with batch size `b = 1` and a single unit skipped for missing
coordinates, after that unit the yearly buffer holds `1 = b` records —
not fewer than `b` — because the skip branch's `continue`
(calculate_cf_wind.py:102) bypasses the in-loop `save_and_commit` calls,
so no flush runs even though the buffer has reached the batch size. -/
theorem C9_batch_pipeline_counterexample :
    ¬ batchPipelineProp cfgW nearestW pmW1 2020 none .update 1
      [windUnitNoCoords] ([], [], []) := by
  intro h
  have hmi : (windUnitEmission cfgW nearestW pmW1 2020 none
      windUnitNoCoords).modelInvoked = false := by
    rw [windUnitEmission_skip cfgW nearestW pmW1 2020 none windUnitNoCoords
      (Or.inl rfl) (Or.inl rfl)]
  have hinv := (h.1 1).2.2
  rw [show ([windUnitNoCoords].take 1) = [windUnitNoCoords] from rfl,
    List.foldl_cons, List.foldl_nil,
    stepWindUnit_skip cfgW nearestW pmW1 2020 none .update 1
      (windInitState ([], [], [])) windUnitNoCoords hmi] at hinv
  simp [appendEmission, windInitState] at hinv

/-- **C9** (amended).  Throughout one year's run of the wind batch commit
pipeline with batch size `b ≥ 1`: an invocation of `save_and_commit`
flushes a buffer (and empties it) exactly when its length has reached `b`;
the in-loop invocations run only for units that were not skipped for
missing coordinates — a skipped unit appends its placeholder records and
leaves the stored tables untouched, so consecutive skipped units can leave
a buffer at or above `b` — hence every buffer holds fewer than `b` records
after each unit that was not skipped; after the unconditional final flush
all three buffers are empty and every accumulated record has been
upserted, keyed by (unit ID, year), into its stored table in emission
order. -/
theorem C9_batch_pipeline_amended (cfg : RunConfig) (nearest : Option ℚ → Option ℚ → ℚ × ℚ)
    (pm : WindUnit → ℚ × ℚ → List ℚ × ℚ) (year : ℤ) (curt : Option ℚ)
    (a : ConflictAction) (b : ℕ) (hb : 1 ≤ b) (units : List WindUnit)
    (stores : List ResultsDict × List ResultsDict × List ResultsDict) :
    amendedBatchPipelineProp cfg nearest pm year curt a b units stores := by
  have hinitH : ((windInitState stores).hourlyBuf, (windInitState stores).hourlyStore) =
      ([], stores.1) := rfl
  have hinitM : ((windInitState stores).monthlyBuf, (windInitState stores).monthlyStore) =
      ([], stores.2.1) := rfl
  have hinitY : ((windInitState stores).yearlyBuf, (windInitState stores).yearlyStore) =
      ([], stores.2.2) := rfl
  refine ⟨?_, ?_, ?_, ?_, ?_, ?_, ?_, ?_, ?_, ?_⟩
  · intro buf store h
    exact save_and_commit_flushes a b buf store h
  · intro buf store h
    exact save_and_commit_below a b buf store h
  · intro st u h
    exact stepWindUnit_skip cfg nearest pm year curt a b st u h
  · intro st u h
    exact stepWindUnit_invoked_lt cfg nearest pm year curt a b hb st u h
  · unfold runYearWind
    rw [finalFlush_spec]
  · unfold runYearWind
    rw [finalFlush_spec]
  · unfold runYearWind
    rw [finalFlush_spec]
  · unfold runYearWind
    rw [finalFlush_spec]
    show List.foldl (upsertOne a) _ _ = _
    have hpb := foldl_stepWindUnit_yearlyBuf cfg nearest pm year curt a b
      units (windInitState stores)
    have hps := foldl_stepWindUnit_yearlyStore cfg nearest pm year curt a b
      units (windInitState stores)
    rw [hinitY] at hpb hps
    obtain ⟨k, h1, h2⟩ := bufStep_foldl_split a b
      (units.map (fun u => (some (windUnitEmission cfg nearest pm year curt u).yearly,
        (windUnitEmission cfg nearest pm year curt u).modelInvoked)))
      [] stores.2.2
    rw [hpb, hps, h1, h2, List.nil_append, foldl_take_drop, map_fst_pair_map,
      reduceOption_map_some_comp]
  · unfold runYearWind
    rw [finalFlush_spec]
    show List.foldl (upsertOne a) _ _ = _
    have hpb := foldl_stepWindUnit_monthlyBuf cfg nearest pm year curt a b
      units (windInitState stores)
    have hps := foldl_stepWindUnit_monthlyStore cfg nearest pm year curt a b
      units (windInitState stores)
    rw [hinitM] at hpb hps
    obtain ⟨k, h1, h2⟩ := bufStep_foldl_split a b
      (units.map (fun u => (some (windUnitEmission cfg nearest pm year curt u).monthly,
        (windUnitEmission cfg nearest pm year curt u).modelInvoked)))
      [] stores.2.1
    rw [hpb, hps, h1, h2, List.nil_append, foldl_take_drop, map_fst_pair_map,
      reduceOption_map_some_comp]
  · unfold runYearWind
    rw [finalFlush_spec]
    show List.foldl (upsertOne a) _ _ = _
    have hpb := foldl_stepWindUnit_hourlyBuf cfg nearest pm year curt a b
      units (windInitState stores)
    have hps := foldl_stepWindUnit_hourlyStore cfg nearest pm year curt a b
      units (windInitState stores)
    rw [hinitH] at hpb hps
    obtain ⟨k, h1, h2⟩ := bufStep_foldl_split a b
      (units.map (fun u => ((windUnitEmission cfg nearest pm year curt u).hourly,
        (windUnitEmission cfg nearest pm year curt u).modelInvoked)))
      [] stores.1
    rw [hpb, hps, h1, h2, List.nil_append, foldl_take_drop, map_fst_pair_map]

/-- Witness for the amended C9: one skipped unit, batch size 1, empty
initial stores. -/
theorem C9_batch_pipeline_amended_witness :
    1 ≤ 1 ∧
    amendedBatchPipelineProp cfgW nearestW pmW1 2020 none .update 1
      [windUnitNoCoords] ([], [], []) :=
  ⟨le_refl 1,
   C9_batch_pipeline_amended cfgW nearestW pmW1 2020 none .update 1 (le_refl 1)
     [windUnitNoCoords] ([], [], [])⟩

end KfwMastr
